import Mathlib

/-!
# Client-side behaviour layer (`static/script.js`)

A shallow embedding of the pure parts of `static/script.js`: the HTML escaper, the blog
preview pipeline, the auth-form validator, the list renderers, the timestamp parser and the
background loaders.

JavaScript strings are sequences of UTF-16 code units, and every operation used by the script
(`length`, `slice`, `replace` with a non-unicode regular expression, `trim`) works on code
units.  A string is therefore embedded as the list of its code units.
-/

namespace Script

/-- A JavaScript string: the sequence of its UTF-16 code units. -/
abbrev JsString := List Nat

/-- The JavaScript string written by a literal of the source (basic-plane characters only,
so every character is one code unit). -/
def js (s : String) : JsString := s.toList.map Char.toNat

/-! ## `String.prototype.replace` with a global single-code-unit pattern -/

/-- Models `text.replace(/[...]/g, fn)` for a pattern that matches exactly one code unit
(`cls` decides membership in the class): the text is scanned left to right, every matching
code unit is replaced by the value of the callback on it, every other code unit is copied.
The scan resumes after the match, so replacement text is never rescanned. -/
def replaceAll (cls : Nat → Bool) (fn : Nat → JsString) : JsString → JsString
  | [] => []
  | c :: rest => (if cls c then fn c else [c]) ++ replaceAll cls fn rest

/-! ## `escapeHtml` (lines 412-421) -/

/-- The object literal `map` of `escapeHtml`: keys and their entity. -/
def escapeMap : List (Nat × JsString) :=
  [ ('&'.toNat, js "&amp;"),
    ('<'.toNat, js "&lt;"),
    ('>'.toNat, js "&gt;"),
    ('"'.toNat, js "&quot;"),
    ('\''.toNat, js "&#039;") ]

/-- Property lookup `map[m]`; a key that is not in the object yields `undefined`, which
`replace` would stringify. -/
def escapeMapGet (m : Nat) : JsString :=
  match escapeMap.lookup m with
  | some e => e
  | none => js "undefined"

/-- The character class `[&<>"']`. -/
def escapeClass (c : Nat) : Bool :=
  c == '&'.toNat || c == '<'.toNat || c == '>'.toNat || c == '"'.toNat || c == '\''.toNat

/-- Embeds `escapeHtml(text)`: `text.replace(/[&<>"']/g, m => map[m])`. -/
def escapeHtml (text : JsString) : JsString :=
  replaceAll escapeClass escapeMapGet text

/-! ## Specification-side definitions for the escaper -/

/-- The text the contract assigns to one character: its entity for the five special
characters, the character itself otherwise. -/
def entityOf (c : Nat) : JsString :=
  if c = '&'.toNat then js "&amp;"
  else if c = '<'.toNat then js "&lt;"
  else if c = '>'.toNat then js "&gt;"
  else if c = '"'.toNat then js "&quot;"
  else if c = '\''.toNat then js "&#039;"
  else [c]

/-! ## Blog preview (`displayBlogs`, lines 220-222) -/

/-- Embeds `String(x || "")` for a string `x`: the empty string is falsy and is replaced
by `""`, any other string is kept. -/
def stringOrEmpty (x : JsString) : JsString :=
  if x.isEmpty then js "" else x

/-- Embeds `s.slice(0, n)`: the first `n` code units. -/
def slice0 (s : JsString) (n : Nat) : JsString := s.take n

/-- Embeds `rawContent.length > 220 ? rawContent.slice(0, 220) + "..." : rawContent`
(the template literal concatenates the slice and three dots). -/
def previewRaw (rawContent : JsString) : JsString :=
  if rawContent.length > 220 then slice0 rawContent 220 ++ js "..." else rawContent

/-- Embeds `s.replace(/\n/g, "<br>")`; the replacement text has no `$` pattern. -/
def nl2br (s : JsString) : JsString :=
  replaceAll (fun c => c == '\n'.toNat) (fun _ => js "<br>") s

/-- Embeds `previewContent` of `displayBlogs` for a blog whose `content` is `content`. -/
def previewContent (content : JsString) : JsString :=
  nl2br (escapeHtml (previewRaw (stringOrEmpty content)))

/-- The truncation of the contract: the first 220 code units followed by `...` exactly when
the text is longer than 220, the text itself otherwise. -/
def truncate220 (c : JsString) : JsString :=
  if 220 < c.length then c.take 220 ++ js "..." else c

/-- What one code unit of the truncated text becomes in the preview: a newline becomes
`<br>`, every other code unit its escaped form. -/
def previewPiece (c : Nat) : JsString :=
  if c = '\n'.toNat then js "<br>" else entityOf c

/-- The sample content of the contract, `<script>a\nb</script>`, repeated `n` times. -/
def scriptSample (n : Nat) : JsString :=
  (List.replicate n (js "<script>a\nb</script>")).flatten

/-! ## `validateAuthForm` (lines 71-140) -/

/-- The name of the control found by `querySelector('[name="username"], [name="new_username"]')`. -/
inductive UsernameName where
  | username
  | new_username
  deriving DecidableEq, Repr

/-- The name of the control found by
`querySelector('[name="password"], [name="current_password"]')`. -/
inductive PasswordName where
  | password
  | current_password
  deriving DecidableEq, Repr

/-- The `name` property of the username-like control. -/
def UsernameName.name : UsernameName → JsString
  | .username => js "username"
  | .new_username => js "new_username"

/-- The `name` property of the current-password-like control. -/
def PasswordName.name : PasswordName → JsString
  | .password => js "password"
  | .current_password => js "current_password"

/-- The part of an auth form that `validateAuthForm` reads and writes.  Each control is the
first element matched by its selector (`none` when `querySelector` returns `null`) with its
`value`; `errorEls` lists the elements carrying `data-error-for` in document order as pairs
of the attribute value and the `textContent`; `strengthEl` is the `textContent` of the
`[data-password-strength]` element and `submitBtn` the `disabled` property of the
`[data-submit-btn]` element. -/
structure AuthForm where
  username : Option (UsernameName × JsString)
  currentPassword : Option (PasswordName × JsString)
  newPassword : Option JsString
  confirmPassword : Option JsString
  errorEls : List (JsString × JsString)
  strengthEl : Option JsString
  submitBtn : Option Bool
  deriving DecidableEq, Repr

/-- White space and line terminators removed by `String.prototype.trim`. -/
def isTrimSpace (c : Nat) : Bool :=
  c == 0x9 || c == 0xA || c == 0xB || c == 0xC || c == 0xD || c == 0x20 || c == 0xA0 ||
  c == 0x1680 || (0x2000 ≤ c && c ≤ 0x200A) || c == 0x2028 || c == 0x2029 || c == 0x202F ||
  c == 0x205F || c == 0x3000 || c == 0xFEFF

/-- Embeds `s.trim()`. -/
def trim (s : JsString) : JsString :=
  ((s.dropWhile isTrimSpace).reverse.dropWhile isTrimSpace).reverse

/-- Embeds the closure `setError(fieldName, message)`: the first element whose
`data-error-for` equals `fieldName`, when there is one, gets `message || ""` as text. -/
def setError : List (JsString × JsString) → JsString → JsString → List (JsString × JsString)
  | [], _, _ => []
  | (k, t) :: rest, fieldName, message =>
    if k = fieldName then (k, stringOrEmpty message) :: rest
    else (k, t) :: setError rest fieldName message

/-- The text of the first element whose `data-error-for` equals `fieldName`. -/
def errorText : List (JsString × JsString) → JsString → Option JsString
  | [], _ => none
  | (k, t) :: rest, fieldName => if k = fieldName then some t else errorText rest fieldName

/-- Embeds `/[A-Z]/.test(s)`. -/
def testUpper (s : JsString) : Bool := s.any (fun c => 'A'.toNat ≤ c && c ≤ 'Z'.toNat)

/-- Embeds `/\d/.test(s)`. -/
def testDigit (s : JsString) : Bool := s.any (fun c => '0'.toNat ≤ c && c ≤ '9'.toNat)

/-- Embeds `/[^A-Za-z0-9]/.test(s)`. -/
def testNonAlnum (s : JsString) : Bool :=
  s.any (fun c => !(('A'.toNat ≤ c && c ≤ 'Z'.toNat) || ('a'.toNat ≤ c && c ≤ 'z'.toNat) ||
    ('0'.toNat ≤ c && c ≤ '9'.toNat)))

/-- The local variable `valid` together with the form as written so far. -/
structure Validation where
  valid : Bool
  form : AuthForm
  deriving DecidableEq, Repr

/-- The state after a call `setError(fieldName, message)` that follows the assignment
`valid = v` (or leaves `valid` as it is). -/
def Validation.withError (st : Validation) (v : Bool) (fieldName message : JsString) :
    Validation :=
  { valid := v, form := { st.form with errorEls := setError st.form.errorEls fieldName message } }

/-- Lines 84-92: the `if (username)` block. -/
def checkUsername (st : Validation) : Validation :=
  match st.form.username with
  | none => st
  | some (n, value) =>
    let usernameValue := trim value
    if usernameValue.length < 3 then
      st.withError false n.name (js "Username must be at least 3 characters.")
    else
      st.withError st.valid n.name (js "")

/-- Lines 94-102: the `if (currentPassword)` block; `!passwordValue` holds for the empty
string only. -/
def checkCurrentPassword (st : Validation) : Validation :=
  match st.form.currentPassword with
  | none => st
  | some (n, passwordValue) =>
    if passwordValue.isEmpty then
      st.withError false n.name (js "Password is required.")
    else
      st.withError st.valid n.name (js "")

/-- Lines 108-113: the length rule on the new password. -/
def checkNewLength (newPasswordValue : JsString) (st : Validation) : Validation :=
  if !newPasswordValue.isEmpty && newPasswordValue.length < 6 then
    st.withError false (js "new_password") (js "New password must be at least 6 characters.")
  else
    st.withError st.valid (js "new_password") (js "")

/-- Lines 115-122: the comparison of the new password with its confirmation. -/
def checkConfirm (newPasswordValue confirmValue : JsString) (st : Validation) : Validation :=
  if newPasswordValue ≠ confirmValue then
    if !confirmValue.isEmpty || !newPasswordValue.isEmpty then
      st.withError false (js "confirm_password") (js "Passwords do not match.")
    else st
  else
    st.withError st.valid (js "confirm_password") (js "")

/-- Lines 126-134: the text written into the strength element. -/
def strengthText (newPasswordValue : JsString) : JsString :=
  if newPasswordValue.isEmpty then js ""
  else if newPasswordValue.length < 8 then js "Password strength: Weak"
  else if testUpper newPasswordValue && testDigit newPasswordValue &&
      testNonAlnum newPasswordValue then js "Password strength: Strong"
  else js "Password strength: Medium"

/-- Lines 124-135: the strength element, when present, receives the strength text. -/
def showStrength (newPasswordValue : JsString) (st : Validation) : Validation :=
  match st.form.strengthEl with
  | none => st
  | some _ => { st with form := { st.form with strengthEl := some (strengthText newPasswordValue) } }

/-- Lines 104-136: the `if (newPassword && confirmPassword)` block. -/
def checkNewPassword (st : Validation) : Validation :=
  match st.form.newPassword, st.form.confirmPassword with
  | some newPasswordValue, some confirmValue =>
    showStrength newPasswordValue
      (checkConfirm newPasswordValue confirmValue (checkNewLength newPasswordValue st))
  | _, _ => st

/-- Line 138: `if (submitBtn) submitBtn.disabled = !valid`. -/
def setSubmit (st : Validation) : Validation :=
  match st.form.submitBtn with
  | none => st
  | some _ => { st with form := { st.form with submitBtn := some (!st.valid) } }

/-- Embeds `validateAuthForm(authForm)`: the returned `valid` and the form as left by the
call. -/
def validateAuthForm (authForm : AuthForm) : Validation :=
  setSubmit (checkNewPassword (checkCurrentPassword (checkUsername
    { valid := true, form := authForm })))

/-! ### Per-field rules as the contract words them -/

/-- The username-like field is absent or its trimmed value has at least 3 code units. -/
def usernameRule (f : AuthForm) : Bool :=
  match f.username with
  | none => true
  | some (_, v) => decide (3 ≤ (trim v).length)

/-- The current-password-like field is absent or its value is non-empty. -/
def currentPasswordRule (f : AuthForm) : Bool :=
  match f.currentPassword with
  | none => true
  | some (_, v) => decide (v ≠ [])

/-- The new-password and confirm-password fields are not both present, or the new password
is empty or has at least 6 code units, and equals the confirm value. -/
def newPasswordRule (f : AuthForm) : Bool :=
  match f.newPassword, f.confirmPassword with
  | some p, some q => (decide (p = []) || decide (6 ≤ p.length)) && decide (p = q)
  | _, _ => true

/-- A form with the given controls, one error element per listed field name (all with the
stale text `old`), a strength element and a submit button. -/
def sampleForm (username : Option (UsernameName × JsString))
    (currentPassword : Option (PasswordName × JsString))
    (newPassword confirmPassword : Option JsString) : AuthForm :=
  { username := username, currentPassword := currentPassword, newPassword := newPassword,
    confirmPassword := confirmPassword,
    errorEls := [(js "username", js "old"), (js "password", js "old"),
      (js "new_password", js "old"), (js "confirm_password", js "old")],
    strengthEl := some (js "old"), submitBtn := some false }

/-! ## `JSON.stringify` on a string -/

/-- Four lower-case hexadecimal digits of a code unit. -/
def hex4 (c : Nat) : JsString :=
  [c / 4096 % 16, c / 256 % 16, c / 16 % 16, c % 16].map
    (fun d => if d < 10 then '0'.toNat + d else 'a'.toNat + (d - 10))

/-- The escape `\uXXXX` of a code unit. -/
def unicodeEscape (c : Nat) : JsString := js "\\u" ++ hex4 c

/-- The text `JSON.stringify` writes for one code unit that is not a surrogate: the short
escapes for backspace, tab, line feed, form feed, carriage return, the double quote and the
backslash, `\uXXXX` for the other control characters, the code unit itself otherwise. -/
def jsonEscapeUnit (c : Nat) : JsString :=
  if c = 0x8 then js "\\b"
  else if c = 0x9 then js "\\t"
  else if c = 0xA then js "\\n"
  else if c = 0xC then js "\\f"
  else if c = 0xD then js "\\r"
  else if c = '"'.toNat then js "\\\""
  else if c = '\\'.toNat then js "\\\\"
  else if c < 0x20 then unicodeEscape c
  else [c]

/-- A leading (high) surrogate code unit. -/
def isHighSurrogate (c : Nat) : Bool := 0xD800 ≤ c && c ≤ 0xDBFF

/-- A trailing (low) surrogate code unit. -/
def isLowSurrogate (c : Nat) : Bool := 0xDC00 ≤ c && c ≤ 0xDFFF

/-- The body of the quoted string (ECMAScript `QuoteJSONString`): a surrogate pair is
copied, a lone surrogate is written as `\uXXXX`, any other code unit as `jsonEscapeUnit`. -/
def quoteJSONBody : JsString → JsString
  | [] => []
  | [c] =>
    if isHighSurrogate c || isLowSurrogate c then unicodeEscape c else jsonEscapeUnit c
  | c :: d :: rest =>
    if isHighSurrogate c then
      if isLowSurrogate d then c :: d :: quoteJSONBody rest
      else unicodeEscape c ++ quoteJSONBody (d :: rest)
    else if isLowSurrogate c then unicodeEscape c ++ quoteJSONBody (d :: rest)
    else jsonEscapeUnit c ++ quoteJSONBody (d :: rest)

/-- Embeds `JSON.stringify(s)` for a string `s`: the body between two double quotes. -/
def jsonStringify (s : JsString) : JsString :=
  js "\"" ++ quoteJSONBody s ++ js "\""

/-! ## Blog list (`displayBlogs`, lines 202-271) -/

/-- The identifier of a record as the templates use it.  An interpolation `${record.id}`
converts the JSON value to text and only that text reaches the markup; `text` is the result
of the conversion (the decimal digits of a row number, `1e+21` for the number `10^21`). -/
structure RecordId where
  text : JsString
  deriving DecidableEq, Repr

/-- A blog record of `GET /api/blogs`. -/
structure Blog where
  id : RecordId
  title : JsString
  category : JsString
  content : JsString
  timestamp : JsString
  deriving DecidableEq, Repr

/-- The value decoded from a response body: a JSON array of records (a JavaScript array,
so with fewer than `2^32` elements), or a value that is not an array and has no `length`
equal to 0 and no `forEach` (an error object, `null`, a number). -/
inductive Payload (α : Type) where
  | array (items : List α)
  | nonArray
  deriving DecidableEq, Repr

/-- Embeds the conversion of `index + 1` in a template literal, for the index of an array
element: array indices are below `2^32`, where the conversion writes the decimal digits. -/
def numberToString (n : Nat) : JsString := (Nat.toDigits 10 n).map Char.toNat

/-- Embeds `array.forEach((item, index) => ...)` for a callback that updates a state. -/
def forEachIdx {σ α : Type} (f : σ → α → Nat → σ) : List α → Nat → σ → σ
  | [], _, s => s
  | a :: rest, i, s => forEachIdx f rest (i + 1) (f s a i)

/-- Lines 227-246: the variable `adminActions`. -/
def blogAdminActions (isAdmin : Bool) (blog : Blog) : JsString :=
  let rawTitle := stringOrEmpty blog.title
  let rawCategory := stringOrEmpty blog.category
  let rawContent := stringOrEmpty blog.content
  let safeTitle := jsonStringify rawTitle
  let safeCategory := jsonStringify rawCategory
  let safeContent := jsonStringify rawContent
  let escapedTitle := escapeHtml rawTitle
  if isAdmin then
    js "
          <div class=\"blog-admin-actions\">
            <button class=\"form-btn\"
              aria-label=\"Edit blog " ++
    escapedTitle ++
    js "\"
              onclick='editBlog(" ++
    blog.id.text ++
    js ", " ++
    safeTitle ++
    js ", " ++
    safeCategory ++
    js ", " ++
    safeContent ++
    js ")'>
              Edit
            </button>
            <button class=\"form-btn\"
              aria-label=\"Delete blog " ++
    escapedTitle ++
    js "\"
              style=\"background-color:#ff6b6b;\"
              onclick=\"deleteBlog(" ++
    blog.id.text ++
    js ")\">
              Delete
            </button>
          </div>
      "
  else js ""

/-- Lines 217-229 and 248-266: the template of the card up to the interpolation of
`adminActions`; `formatDate` is the date formatter of the page (lines 390-398, built on
`Intl`). -/
def blogCardBody (formatDate : JsString → JsString) (blog : Blog) (index : Nat) : JsString :=
  let date := formatDate blog.timestamp
  let rawTitle := stringOrEmpty blog.title
  let rawCategory := stringOrEmpty blog.category
  let rawContent := stringOrEmpty blog.content
  let previewContent := Script.previewContent blog.content
  let safeTitle := jsonStringify rawTitle
  let safeCategory := jsonStringify rawCategory
  let safeDate := jsonStringify date
  let safeContent := jsonStringify rawContent
  let escapedTitle := escapeHtml rawTitle
  js "
      <li class=\"blog-post-item\">
        <div class=\"blog-content blog-sequence-card\">
          <span class=\"blog-seq-badge\">#" ++
    numberToString (index + 1) ++
    js "</span>
          <div class=\"blog-meta\">
            <p class=\"blog-category\">" ++
    blog.category ++
    js "</p>
            <span class=\"dot\"></span>
            <time>" ++
    date ++
    js "</time>
          </div>
          <h3 class=\"h3 blog-item-title\">
            <button class=\"blog-open-btn\" onclick='openBlogModal(" ++
    blog.id.text ++
    js ", " ++
    safeTitle ++
    js ", " ++
    safeCategory ++
    js ", " ++
    safeDate ++
    js ", " ++
    safeContent ++
    js ")' aria-label=\"Open full blog " ++
    escapedTitle ++
    js "\">
              " ++
    escapedTitle ++
    js "
            </button>
          </h3>
          <p class=\"blog-text\">" ++
    previewContent ++
    js "</p>
          <button class=\"blog-read-btn\" onclick='openBlogModal(" ++
    blog.id.text ++
    js ", " ++
    safeTitle ++
    js ", " ++
    safeCategory ++
    js ", " ++
    safeDate ++
    js ", " ++
    safeContent ++
    js ")' aria-label=\"Read full blog " ++
    escapedTitle ++
    js "\">
            Read Full
          </button>
          "

/-- Lines 248-269: the markup appended for one blog, the template with `adminActions`
interpolated before its closing lines. -/
def blogCard (isAdmin : Bool) (formatDate : JsString → JsString) (blog : Blog) (index : Nat) :
    JsString :=
  blogCardBody formatDate blog index ++ blogAdminActions isAdmin blog ++
    js "
        </div>
      </li>
    "

/-- The placeholder of the empty blog list (lines 211-212). -/
def blogsPlaceholder : JsString := js "<p style='text-align:center;color:#999;'>No blogs yet.</p>"

/-- What a renderer leaves behind: the container and whether it ended by throwing.  A
container is the list of markup fragments written into its `innerHTML` since it was last
cleared (`innerHTML = x` leaves the fragment `x`, `innerHTML += x` adds the fragment `x`). -/
structure RenderOutcome where
  container : Option (List JsString)
  threw : Bool
  deriving DecidableEq, Repr

/-- Embeds `displayBlogs(blogs)`.  Without the container nothing happens; otherwise the
container is cleared first, a value that is not an array then makes `blogs.forEach` throw a
`TypeError`, an empty array yields the placeholder and any other array one appended fragment
per element. -/
def displayBlogs (isAdmin : Bool) (formatDate : JsString → JsString)
    (blogsContainer : Option (List JsString)) (blogs : Payload Blog) : RenderOutcome :=
  match blogsContainer with
  | none => { container := none, threw := false }
  | some _ =>
    match blogs with
    | .nonArray => { container := some [], threw := true }
    | .array items =>
      if items.length = 0 then { container := some [blogsPlaceholder], threw := false }
      else
        { container := some (forEachIdx
            (fun inner blog index => inner ++ [blogCard isAdmin formatDate blog index]) items 0 []),
          threw := false }

/-! ## Routine posts (`renderPosts`, lines 437-497) -/

/-- A reply of a routine post. -/
structure Reply where
  message : JsString
  timestamp : JsString
  deriving DecidableEq, Repr

/-- A routine post of `GET /api/routine/posts`; `replies` is `none` when the property is
missing or `null`. -/
structure Post where
  id : RecordId
  message : JsString
  timestamp : JsString
  replies : Option (List Reply)
  deriving DecidableEq, Repr

/-- Lines 447-453: the opening of a post card. -/
def postHead (formatTime : JsString → JsString) (post : Post) : JsString :=
  js "
        <div class=\"post-card\">
          <div class=\"post-header\">
            <div class=\"post-time\">" ++
    formatTime post.timestamp ++
    js "</div>
          </div>
          <div class=\"post-message\">" ++
    escapeHtml post.message ++
    js "</div>
      "

/-- Lines 455-472: the reply controls, added for an administrator only. -/
def postAdminActions (isAdmin : Bool) (post : Post) : JsString :=
  if isAdmin then
    js "
          <div class=\"post-actions\">
            <button class=\"btn-reply\"
              onclick=\"toggleReplyForm(" ++
    post.id.text ++
    js ")\">
              Reply
            </button>
          </div>

          <div class=\"reply-form\" id=\"replyForm-" ++
    post.id.text ++
    js "\">
            <textarea id=\"replyText-" ++
    post.id.text ++
    js "\" rows=\"3\"
              placeholder=\"Write a reply...\"></textarea>
            <button onclick=\"submitReply(" ++
    post.id.text ++
    js ")\">
              Post Reply
            </button>
          </div>
        "
  else js ""

/-- Lines 478-487: the markup of one reply. -/
def replyItem (formatTime : JsString → JsString) (reply : Reply) : JsString :=
  js "
            <div class=\"reply-item\">
              <div class=\"reply-time\">
                " ++
    formatTime reply.timestamp ++
    js "
              </div>
              <div class=\"reply-text\">
                " ++
    escapeHtml reply.message ++
    js "
              </div>
            </div>
          "

/-- Lines 474-491: the replies container, present when there is at least one reply. -/
def postReplies (formatTime : JsString → JsString) (post : Post) : JsString :=
  match post.replies with
  | none => js ""
  | some replies =>
    if replies.length > 0 then
      forEachIdx (fun html reply _ => html ++ replyItem formatTime reply) replies 0
        (js "<div class=\"replies-container\">") ++ js "</div>"
    else js ""

/-- Lines 447-493: the variable `html` when it is appended to the container. -/
def postCard (isAdmin : Bool) (formatTime : JsString → JsString) (post : Post) : JsString :=
  postHead formatTime post ++ postAdminActions isAdmin post ++ postReplies formatTime post ++
    js "</div>"

/-- The placeholder of the empty post list (lines 441-442). -/
def postsPlaceholder : JsString := js "<div class=\"empty-state\"><p>No posts yet.</p></div>"

/-- Embeds `renderPosts()` on the current value of `routinePosts`; the posts container
exists in the block that defines the function. -/
def renderPosts (isAdmin : Bool) (formatTime : JsString → JsString)
    (routinePosts : Payload Post) : RenderOutcome :=
  match routinePosts with
  | .nonArray => { container := some [], threw := true }
  | .array items =>
    if items.length = 0 then { container := some [postsPlaceholder], threw := false }
    else
      { container := some (forEachIdx
          (fun inner post _ => inner ++ [postCard isAdmin formatTime post]) items 0 []),
        threw := false }

/-! ## Background loads (`loadBlogs`, lines 192-200; `loadPosts`, lines 427-435) -/

/-- What `await fetch(url)` followed by `await response.json()` can give: the fetch rejects
(network failure), or it resolves with a response whose `ok` flag tells a success status
from a failure status and whose body either is not JSON (`response.json()` rejects, `none`)
or decodes to a value. -/
inductive FetchOutcome (α : Type) where
  | rejected
  | response (ok : Bool) (body : Option (Payload α))
  deriving DecidableEq, Repr

/-- The state after a background load of the blog list: the container, whether the `catch`
block logged an error and whether `displayBlogs` was called. -/
structure LoadOutcome where
  container : Option (List JsString)
  logged : Bool
  rendererCalled : Bool
  deriving DecidableEq, Repr

/-- Embeds `loadBlogs()`: the decoded body is passed to `displayBlogs` whatever the status
of the response; a rejection of `fetch` or of `response.json()`, or an exception thrown by
`displayBlogs`, ends in the `catch` block, which logs. -/
def loadBlogs (isAdmin : Bool) (formatDate : JsString → JsString)
    (blogsContainer : Option (List JsString)) (outcome : FetchOutcome Blog) : LoadOutcome :=
  match outcome with
  | .rejected => { container := blogsContainer, logged := true, rendererCalled := false }
  | .response _ none => { container := blogsContainer, logged := true, rendererCalled := false }
  | .response _ (some blogs) =>
    let r := displayBlogs isAdmin formatDate blogsContainer blogs
    { container := r.container, logged := r.threw, rendererCalled := true }

/-- The state of the routine feed: the variable `routinePosts` and the posts container,
with the flags of a load as in `LoadOutcome`. -/
structure PostsOutcome where
  routinePosts : Payload Post
  container : List JsString
  logged : Bool
  rendererCalled : Bool
  deriving DecidableEq, Repr

/-- Embeds `loadPosts()`: the decoded body is stored in `routinePosts` and `renderPosts` is
called, whatever the status of the response. -/
def loadPosts (isAdmin : Bool) (formatTime : JsString → JsString)
    (routinePosts : Payload Post) (postsContainer : List JsString)
    (outcome : FetchOutcome Post) : PostsOutcome :=
  match outcome with
  | .rejected =>
    { routinePosts := routinePosts, container := postsContainer, logged := true,
      rendererCalled := false }
  | .response _ none =>
    { routinePosts := routinePosts, container := postsContainer, logged := true,
      rendererCalled := false }
  | .response _ (some posts) =>
    let r := renderPosts isAdmin formatTime posts
    { routinePosts := posts, container := r.container.getD postsContainer, logged := r.threw,
      rendererCalled := true }

/-! ## `parseTimestamp` (lines 367-386) -/

/-- The `Date` constructor call that `parseTimestamp` ends with: `new Date()`,
`new Date(raw)` (the native parser) or `new Date(y, m - 1, d, hh, mm, ss)` (local
wall-clock components). -/
inductive DateCall where
  | now
  | parse (raw : JsString)
  | localTime (year : Nat) (monthIndex : Int) (day hours minutes seconds : Nat)
  deriving DecidableEq, Repr

/-- The code unit at an index, `0` past the end (no pattern below accepts `0`). -/
def unitAt (s : JsString) (i : Nat) : Nat := s.getD i 0

/-- The class `\d`. -/
def isDigit (c : Nat) : Bool := '0'.toNat ≤ c && c ≤ '9'.toNat

/-- Embeds `/[zZ]|[+-]\d{2}:\d{2}$/.test(raw)`: a `z` or `Z` anywhere, or a sign, two
digits, a colon and two digits as the last six code units. -/
def hasTimezone (raw : JsString) : Bool :=
  raw.any (fun c => c == 'z'.toNat || c == 'Z'.toNat) ||
  (6 ≤ raw.length &&
    (unitAt raw (raw.length - 6) == '+'.toNat || unitAt raw (raw.length - 6) == '-'.toNat) &&
    isDigit (unitAt raw (raw.length - 5)) && isDigit (unitAt raw (raw.length - 4)) &&
    unitAt raw (raw.length - 3) == ':'.toNat &&
    isDigit (unitAt raw (raw.length - 2)) && isDigit (unitAt raw (raw.length - 1)))

/-- Embeds `Number` on a captured group of digits. -/
def digitsToNumber (ds : List Nat) : Nat := ds.foldl (fun n d => 10 * n + (d - '0'.toNat)) 0

/-- Embeds `raw.match(/^(\d{4})-(\d{2})-(\d{2})[T ](\d{2}):(\d{2}):(\d{2})/)` followed by
`match.map(Number)`: the six captured numbers when the first 19 code units fit. -/
def matchLocal (raw : JsString) : Option (Nat × Nat × Nat × Nat × Nat × Nat) :=
  let u := unitAt raw
  if isDigit (u 0) && isDigit (u 1) && isDigit (u 2) && isDigit (u 3) && u 4 == '-'.toNat &&
      isDigit (u 5) && isDigit (u 6) && u 7 == '-'.toNat &&
      isDigit (u 8) && isDigit (u 9) && (u 10 == 'T'.toNat || u 10 == ' '.toNat) &&
      isDigit (u 11) && isDigit (u 12) && u 13 == ':'.toNat &&
      isDigit (u 14) && isDigit (u 15) && u 16 == ':'.toNat &&
      isDigit (u 17) && isDigit (u 18) then
    some (digitsToNumber [u 0, u 1, u 2, u 3], digitsToNumber [u 5, u 6],
      digitsToNumber [u 8, u 9], digitsToNumber [u 11, u 12], digitsToNumber [u 14, u 15],
      digitsToNumber [u 17, u 18])
  else none

/-- Embeds `parseTimestamp(value)`; `none` is a `null` or missing value. -/
def parseTimestamp (value : Option JsString) : DateCall :=
  let raw := match value with
    | none => js ""
    | some v => stringOrEmpty v
  if raw.isEmpty then .now
  else if hasTimezone raw then .parse raw
  else
    match matchLocal raw with
    | some (y, m, d, hh, mm, ss) => .localTime y ((m : Int) - 1) d hh mm ss
    | none => .parse raw

/-- The code unit of a decimal digit. -/
def digitUnit (d : Fin 10) : Nat := '0'.toNat + d.val

/-- The text `YYYY-MM-DD`, a separator, `HH:MM:SS`, written from its digits. -/
def localStamp (y1 y2 y3 y4 m1 m2 d1 d2 : Fin 10) (sep : Nat) (h1 h2 n1 n2 s1 s2 : Fin 10) :
    JsString :=
  [digitUnit y1, digitUnit y2, digitUnit y3, digitUnit y4, '-'.toNat, digitUnit m1,
    digitUnit m2, '-'.toNat, digitUnit d1, digitUnit d2, sep, digitUnit h1, digitUnit h2,
    ':'.toNat, digitUnit n1, digitUnit n2, ':'.toNat, digitUnit s1, digitUnit s2]

/-! ## Reading generated markup back -/

/-- The text that follows the first occurrence of `pat` in `s`, if `pat` occurs. -/
def afterFirst (pat : JsString) : JsString → Option JsString
  | [] => if pat = [] then some [] else none
  | c :: rest =>
    if pat.isPrefixOf (c :: rest) then some ((c :: rest).drop pat.length)
    else afterFirst pat rest

/-- The value an HTML tokenizer gives a single-quoted attribute whose opening quote is
followed by `s`: the text up to the next single quote. -/
def singleQuotedValue (s : JsString) : JsString := s.takeWhile (fun c => c != '\''.toNat)

/-- A blog whose title holds an apostrophe. -/
def apostropheBlog : Blog :=
  { id := { text := js "7" }, title := js "it's", category := js "news", content := js "hello",
    timestamp := js "2024-01-05 10:00:00" }

/-- A blog whose category holds markup. -/
def markupCategoryBlog : Blog :=
  { id := { text := js "7" }, title := js "title", category := js "<img src=x onerror=alert(1)>",
    content := js "hello", timestamp := js "2024-01-05 10:00:00" }

/-- A blog whose category is the markup of a Delete button. -/
def injectedControlsBlog : Blog :=
  { id := { text := js "7" }, title := js "title",
    category := js "<button onclick=\"deleteBlog(7)\">Delete</button>", content := js "hello",
    timestamp := js "2024-01-05 10:00:00" }

/-- A date formatter standing for the one of the page in evaluated samples. -/
def sampleFormatDate : JsString → JsString := fun _ => js "05 Jan 2024"

end Script

namespace Script

/-! ## Occurrences of a text inside a concatenation -/

theorem infix_skip {α : Type} (a x y : List α) (h : x <:+: y) : x <:+: a ++ y :=
  List.IsInfix.trans h (List.suffix_append a y).isInfix

theorem infix_sandwich {α : Type} (xa mid xb p1 p2 : List α) (h1 : xa <:+ p1)
    (h2 : xb <+: p2) : xa ++ (mid ++ xb) <:+: p1 ++ (mid ++ p2) := by
  obtain ⟨s, rfl⟩ := h1
  obtain ⟨t, rfl⟩ := h2
  exact ⟨s, t, by simp [List.append_assoc]⟩

/-! ## Lemmas on `replaceAll` and the escaper -/

theorem replaceAll_eq_flatMap (cls : Nat → Bool) (fn : Nat → JsString) (t : JsString) :
    replaceAll cls fn t = t.flatMap (fun c => if cls c then fn c else [c]) := by
  induction t with
  | nil => rfl
  | cons c rest ih => simp [replaceAll, ih]

theorem escape_unit (c : Nat) :
    (if escapeClass c then escapeMapGet c else [c]) = entityOf c := by
  by_cases h1 : c = 38
  · subst h1; decide
  by_cases h2 : c = 60
  · subst h2; decide
  by_cases h3 : c = 62
  · subst h3; decide
  by_cases h4 : c = 34
  · subst h4; decide
  by_cases h5 : c = 39
  · subst h5; decide
  simp [escapeClass, entityOf, h1, h2, h3, h4, h5]

theorem escapeHtml_eq_flatMap (t : JsString) : escapeHtml t = t.flatMap entityOf := by
  unfold escapeHtml
  rw [replaceAll_eq_flatMap]
  congr 1
  funext c
  exact escape_unit c

/-- C1: `escapeHtml` maps every input, code unit by code unit and in order, to the entity of
each of the five special characters and to the code unit itself otherwise; the result is
built in one pass (so it distributes over concatenation and no produced entity is escaped
again), and the sample of the contract evaluates as stated. -/
theorem escapeHtml_characterisation :
    (∀ t : JsString, escapeHtml t = t.flatMap entityOf) ∧
    (∀ a b : JsString, escapeHtml (a ++ b) = escapeHtml a ++ escapeHtml b) ∧
    entityOf '&'.toNat = js "&amp;" ∧ entityOf '<'.toNat = js "&lt;" ∧
    entityOf '>'.toNat = js "&gt;" ∧ entityOf '"'.toNat = js "&quot;" ∧
    entityOf '\''.toNat = js "&#039;" ∧
    (∀ c : Nat, entityOf c = [c] ∨ c = '&'.toNat ∨ c = '<'.toNat ∨ c = '>'.toNat ∨
      c = '"'.toNat ∨ c = '\''.toNat) ∧
    escapeHtml (js "<b>&'\"") = js "&lt;b&gt;&amp;&#039;&quot;" := by
  refine ⟨escapeHtml_eq_flatMap, ?_, by decide, by decide, by decide, by decide, by decide,
    ?_, by decide⟩
  · intro a b
    simp [escapeHtml_eq_flatMap]
  · intro c
    by_cases h1 : c = 38
    · simp [h1]
    by_cases h2 : c = 60
    · simp [h2]
    by_cases h3 : c = 62
    · simp [h3]
    by_cases h4 : c = 34
    · simp [h4]
    by_cases h5 : c = 39
    · simp [h5]
    left
    simp [entityOf, h1, h2, h3, h4, h5]

/-! ## The preview pipeline -/

theorem stringOrEmpty_eq (x : JsString) : stringOrEmpty x = x := by
  cases x <;> simp [stringOrEmpty, js]

theorem previewRaw_eq_truncate220 (c : JsString) : previewRaw c = truncate220 c := by
  simp [previewRaw, truncate220, slice0]

theorem nl2br_append (a b : JsString) : nl2br (a ++ b) = nl2br a ++ nl2br b := by
  simp [nl2br, replaceAll_eq_flatMap]

theorem nl2br_entityOf (c : Nat) : nl2br (entityOf c) = previewPiece c := by
  by_cases h0 : c = 10
  · subst h0; decide
  by_cases h1 : c = 38
  · subst h1; decide
  by_cases h2 : c = 60
  · subst h2; decide
  by_cases h3 : c = 62
  · subst h3; decide
  by_cases h4 : c = 34
  · subst h4; decide
  by_cases h5 : c = 39
  · subst h5; decide
  simp [entityOf, previewPiece, nl2br, replaceAll, h0, h1, h2, h3, h4, h5]

theorem nl2br_flatMap_entityOf (t : JsString) :
    nl2br (t.flatMap entityOf) = t.flatMap previewPiece := by
  induction t with
  | nil => rfl
  | cons c rest ih => simp [List.flatMap_cons, nl2br_append, nl2br_entityOf, ih]

theorem previewPiece_angles (c : Nat) :
    (c = '\n'.toNat ∧ previewPiece c = js "<br>") ∨
    (c ≠ '\n'.toNat ∧ '<'.toNat ∉ previewPiece c ∧ '>'.toNat ∉ previewPiece c) := by
  by_cases h0 : c = 10
  · subst h0; left; decide
  right
  by_cases h1 : c = 38
  · subst h1; decide
  by_cases h2 : c = 60
  · subst h2; decide
  by_cases h3 : c = 62
  · subst h3; decide
  by_cases h4 : c = 34
  · subst h4; decide
  by_cases h5 : c = 39
  · subst h5; decide
  simp [entityOf, previewPiece, h0, h1, h2, h3, h4, h5]
  omega

theorem blogCard_preview (isAdmin : Bool) (formatDate : JsString → JsString) (blog : Blog)
    (k : Nat) :
    js "<p class=\"blog-text\">" ++ (previewContent blog.content ++ js "</p>") <:+:
      blogCard isAdmin formatDate blog k := by
  simp only [blogCard, blogCardBody, List.append_assoc]
  iterate 20 refine infix_skip _ _ _ ?_
  exact infix_sandwich _ _ _ _ _ (by decide)
    (List.IsPrefix.trans (by decide) (List.prefix_append _ _))

set_option maxRecDepth 100000 in
/-- C2: the preview of a blog content `c` is the truncation of `c` to 220 code units (with
`...` appended exactly when `c` is longer), then escaped, then with newlines turned into
`<br>`; equivalently it is the concatenation, over the code units of the truncated text, of
`<br>` for a newline and of the escaped form for any other code unit, and only the pieces
that stand for a newline contain `<` or `>`.  This preview is what the card of every blog
holds between the tags of its `blog-text` paragraph.  The sample content of the contract
repeated 12 times (240 code units) yields escaped tags, `<br>` at each newline and the
ellipsis. -/
theorem previewContent_characterisation :
    (∀ (isAdmin : Bool) (formatDate : JsString → JsString) (blog : Blog) (k : Nat),
      js "<p class=\"blog-text\">" ++ (previewContent blog.content ++ js "</p>") <:+:
        blogCard isAdmin formatDate blog k) ∧
    (∀ c : JsString, previewContent c = nl2br (escapeHtml (truncate220 c))) ∧
    (∀ c : JsString, previewContent c = (truncate220 c).flatMap previewPiece) ∧
    (∀ ch : Nat, (ch = '\n'.toNat ∧ previewPiece ch = js "<br>") ∨
      (ch ≠ '\n'.toNat ∧ '<'.toNat ∉ previewPiece ch ∧ '>'.toNat ∉ previewPiece ch)) ∧
    (∀ c : JsString, (truncate220 c = c ∧ c.length ≤ 220) ∨
      (truncate220 c = c.take 220 ++ js "..." ∧ 220 < c.length)) ∧
    previewContent (scriptSample 12) =
      (List.replicate 11 (js "&lt;script&gt;a<br>b&lt;/script&gt;")).flatten ++ js "..." := by
  refine ⟨blogCard_preview, ?_, ?_, previewPiece_angles, ?_, by decide⟩
  · intro c
    simp [previewContent, stringOrEmpty_eq, previewRaw_eq_truncate220]
  · intro c
    simp [previewContent, stringOrEmpty_eq, previewRaw_eq_truncate220, escapeHtml_eq_flatMap,
      nl2br_flatMap_entityOf]
  · intro c
    by_cases h : 220 < c.length
    · right; simp [truncate220, h]
    · left; simp [truncate220, h]; omega

/-! ## The validator -/

theorem errorText_setError (els : List (JsString × JsString)) (k m k' : JsString) :
    errorText (setError els k m) k' =
      if k = k' then (errorText els k').map (fun _ => m) else errorText els k' := by
  induction els with
  | nil => simp [setError, errorText]
  | cons e rest ih =>
    obtain ⟨a, t⟩ := e
    by_cases hk : k = k'
    · subst hk
      by_cases ha : a = k
      · simp [setError, errorText, ha, stringOrEmpty_eq]
      · simp [setError, errorText, ha, ih]
    · by_cases ha : a = k
      · subst ha
        simp [setError, errorText, hk]
      · by_cases ha' : a = k'
        · subst ha'
          simp [setError, errorText, ha, hk]
        · simp [setError, errorText, ha, ha', hk, ih]

theorem checkUsername_valid (st : Validation) :
    (checkUsername st).valid = (st.valid && usernameRule st.form) := by
  unfold checkUsername usernameRule
  split
  · simp
  · rename_i n v h
    by_cases hl : (trim v).length < 3
    · simp [h, hl, Validation.withError]
    · simp [h, hl, Validation.withError]; omega

theorem checkCurrentPassword_valid (st : Validation) :
    (checkCurrentPassword st).valid = (st.valid && currentPasswordRule st.form) := by
  unfold checkCurrentPassword currentPasswordRule
  split
  · simp
  · rename_i n v h
    cases v <;> simp [h, Validation.withError]

theorem checkNewPassword_valid (st : Validation) :
    (checkNewPassword st).valid = (st.valid && newPasswordRule st.form) := by
  unfold checkNewPassword newPasswordRule
  split
  · rename_i p q hp hq
    have hs : ∀ s : Validation, (showStrength p s).valid = s.valid := by
      intro s; unfold showStrength; split <;> rfl
    rw [hs]
    unfold checkConfirm checkNewLength
    by_cases hpq : p = q
    · subst hpq
      by_cases h6 : p.length < 6
      · cases p with
        | nil => simp [Validation.withError]
        | cons a t =>
          have h6' : ¬ (6 ≤ t.length + 1) := by simp at h6; omega
          have h6'' : t.length + 1 < 6 := by omega
          simp [Validation.withError, h6', h6'']
      · simp [Validation.withError, h6]; intro _; right; omega
    · have hne : (!q.isEmpty || !p.isEmpty) = true := by
        cases p <;> cases q <;> simp_all
      simp [hpq, hne, Validation.withError]
  · rename_i h
    cases hp : st.form.newPassword <;> cases hq : st.form.confirmPassword <;> simp

theorem setSubmit_valid (st : Validation) : (setSubmit st).valid = st.valid := by
  unfold setSubmit; split <;> rfl

theorem checkUsername_fields (st : Validation) :
    (checkUsername st).form.currentPassword = st.form.currentPassword ∧
    (checkUsername st).form.newPassword = st.form.newPassword ∧
    (checkUsername st).form.confirmPassword = st.form.confirmPassword ∧
    (checkUsername st).form.strengthEl = st.form.strengthEl := by
  unfold checkUsername
  split
  · simp
  · dsimp only
    split <;> simp [Validation.withError]

theorem checkCurrentPassword_fields (st : Validation) :
    (checkCurrentPassword st).form.newPassword = st.form.newPassword ∧
    (checkCurrentPassword st).form.confirmPassword = st.form.confirmPassword ∧
    (checkCurrentPassword st).form.strengthEl = st.form.strengthEl := by
  unfold checkCurrentPassword
  split
  · simp
  · split <;> simp [Validation.withError]

theorem validateAuthForm_valid (f : AuthForm) :
    (validateAuthForm f).valid = (usernameRule f && currentPasswordRule f && newPasswordRule f) := by
  unfold validateAuthForm
  rw [setSubmit_valid, checkNewPassword_valid, checkCurrentPassword_valid, checkUsername_valid]
  have h1 := checkUsername_fields { valid := true, form := f }
  have h2 := checkCurrentPassword_fields (checkUsername { valid := true, form := f })
  have e1 : currentPasswordRule (checkUsername { valid := true, form := f }).form =
      currentPasswordRule f := by
    simp [currentPasswordRule, h1.1]
  have e2 : newPasswordRule (checkCurrentPassword (checkUsername
      { valid := true, form := f })).form = newPasswordRule f := by
    simp [newPasswordRule, h2.1, h2.2.1, h1.2.1, h1.2.2.1]
  rw [e1, e2]
  simp

theorem withError_errorText (st : Validation) (v : Bool) (k m k' : JsString) :
    errorText (st.withError v k m).form.errorEls k' =
      if k = k' then (errorText st.form.errorEls k').map (fun _ => m)
      else errorText st.form.errorEls k' := by
  simp [Validation.withError, errorText_setError]

theorem checkUsername_errorText_other (st : Validation) (k : JsString)
    (h1 : k ≠ js "username") (h2 : k ≠ js "new_username") :
    errorText (checkUsername st).form.errorEls k = errorText st.form.errorEls k := by
  unfold checkUsername
  split
  · rfl
  · rename_i n v _
    have hn : ¬ n.name = k := by
      cases n
      · exact fun h => h1 h.symm
      · exact fun h => h2 h.symm
    dsimp only
    split <;> simp [withError_errorText, hn]

theorem checkCurrentPassword_errorText_other (st : Validation) (k : JsString)
    (h1 : k ≠ js "password") (h2 : k ≠ js "current_password") :
    errorText (checkCurrentPassword st).form.errorEls k = errorText st.form.errorEls k := by
  unfold checkCurrentPassword
  split
  · rfl
  · rename_i n v _
    have hn : ¬ n.name = k := by
      cases n
      · exact fun h => h1 h.symm
      · exact fun h => h2 h.symm
    split <;> simp [withError_errorText, hn]

theorem showStrength_errorEls (p : JsString) (st : Validation) :
    (showStrength p st).form.errorEls = st.form.errorEls := by
  unfold showStrength; split <;> rfl

theorem checkNewPassword_errorText_other (st : Validation) (k : JsString)
    (h1 : k ≠ js "new_password") (h2 : k ≠ js "confirm_password") :
    errorText (checkNewPassword st).form.errorEls k = errorText st.form.errorEls k := by
  have h1' : ¬ js "new_password" = k := fun h => h1 h.symm
  have h2' : ¬ js "confirm_password" = k := fun h => h2 h.symm
  unfold checkNewPassword
  split
  · rw [showStrength_errorEls]
    unfold checkConfirm checkNewLength
    split <;> split <;> (try split) <;> simp [withError_errorText, h1', h2']
  · rfl

theorem setSubmit_errorEls (st : Validation) :
    (setSubmit st).form.errorEls = st.form.errorEls := by
  unfold setSubmit; split <;> rfl

theorem checkUsername_errorText_self (st : Validation) (n : UsernameName) (v : JsString)
    (h : st.form.username = some (n, v)) :
    errorText (checkUsername st).form.errorEls n.name =
      (errorText st.form.errorEls n.name).map (fun _ =>
        if (trim v).length < 3 then js "Username must be at least 3 characters." else js "") := by
  unfold checkUsername
  simp only [h]
  split <;> simp [withError_errorText]

theorem usernameName_ne (n : UsernameName) :
    n.name ≠ js "password" ∧ n.name ≠ js "current_password" ∧ n.name ≠ js "new_password" ∧
    n.name ≠ js "confirm_password" := by
  cases n <;> decide

theorem validateAuthForm_username_text (f : AuthForm) (n : UsernameName) (v : JsString) :
    errorText (validateAuthForm { f with username := some (n, v) }).form.errorEls n.name =
      (errorText f.errorEls n.name).map (fun _ =>
        if (trim v).length < 3 then js "Username must be at least 3 characters." else js "") := by
  obtain ⟨h1, h2, h3, h4⟩ := usernameName_ne n
  unfold validateAuthForm
  rw [setSubmit_errorEls, checkNewPassword_errorText_other _ _ h3 h4,
    checkCurrentPassword_errorText_other _ _ h1 h2,
    checkUsername_errorText_self _ n v rfl]

/-- C4: `validateAuthForm` returns `true` exactly when the username rule, the
current-password rule and the new-password rule all pass; the error element of the
username-like field receives "Username must be at least 3 characters." when the trimmed
value is shorter than 3 and the empty text otherwise.  At the boundaries: a username of
length 2 gives an invalid form with that message, length 3 a valid one with no message; a
new password of length 5 gives an invalid form, length 6 with a matching confirmation a
valid one. -/
theorem validateAuthForm_valid_iff_rules :
    (∀ f : AuthForm, (validateAuthForm f).valid = true ↔
      (usernameRule f = true ∧ currentPasswordRule f = true ∧ newPasswordRule f = true)) ∧
    (∀ (f : AuthForm) (n : UsernameName) (v : JsString),
      errorText (validateAuthForm { f with username := some (n, v) }).form.errorEls n.name =
        (errorText f.errorEls n.name).map (fun _ =>
          if (trim v).length < 3 then js "Username must be at least 3 characters."
          else js "")) ∧
    ((validateAuthForm (sampleForm (some (.username, js "ab")) none none none)).valid = false ∧
      errorText (validateAuthForm (sampleForm (some (.username, js "ab")) none none none)).form.errorEls
        (js "username") = some (js "Username must be at least 3 characters.")) ∧
    ((validateAuthForm (sampleForm (some (.username, js "abc")) none none none)).valid = true ∧
      errorText (validateAuthForm (sampleForm (some (.username, js "abc")) none none none)).form.errorEls
        (js "username") = some (js "")) ∧
    ((validateAuthForm (sampleForm none none (some (js "12345")) (some (js "12345")))).valid = false ∧
      errorText (validateAuthForm
          (sampleForm none none (some (js "12345")) (some (js "12345")))).form.errorEls
        (js "new_password") = some (js "New password must be at least 6 characters.")) ∧
    ((validateAuthForm (sampleForm none none (some (js "123456")) (some (js "123456")))).valid = true ∧
      errorText (validateAuthForm
          (sampleForm none none (some (js "123456")) (some (js "123456")))).form.errorEls
        (js "new_password") = some (js "")) := by
  refine ⟨?_, validateAuthForm_username_text, by decide, by decide, by decide, by decide⟩
  intro f
  rw [validateAuthForm_valid]
  simp [Bool.and_eq_true, and_assoc]

theorem checkNewPassword_errorText_confirm (st : Validation) (p q : JsString)
    (hp : st.form.newPassword = some p) (hq : st.form.confirmPassword = some q) :
    errorText (checkNewPassword st).form.errorEls (js "confirm_password") =
      (errorText st.form.errorEls (js "confirm_password")).map (fun _ =>
        if p ≠ q ∧ (p ≠ [] ∨ q ≠ []) then js "Passwords do not match." else js "") := by
  have hk : ¬ js "new_password" = js "confirm_password" := by decide
  have hlen : ∀ s : Validation, errorText (checkNewLength p s).form.errorEls
      (js "confirm_password") = errorText s.form.errorEls (js "confirm_password") := by
    intro s
    unfold checkNewLength
    split <;> simp [withError_errorText, hk]
  unfold checkNewPassword
  simp only [hp, hq]
  rw [showStrength_errorEls]
  unfold checkConfirm
  by_cases hpq : p = q
  · subst hpq
    simp [withError_errorText, hlen]
  · have hne : (!q.isEmpty || !p.isEmpty) = true := by
      cases p <;> cases q <;> simp_all
    have hne' : p ≠ [] ∨ q ≠ [] := by
      cases p <;> cases q <;> simp_all
    simp [hpq, hne, hne', withError_errorText, hlen]

theorem validateAuthForm_confirm_text (f : AuthForm) (p q : JsString) :
    errorText (validateAuthForm
        { f with newPassword := some p, confirmPassword := some q }).form.errorEls
        (js "confirm_password") =
      (errorText f.errorEls (js "confirm_password")).map (fun _ =>
        if p ≠ q ∧ (p ≠ [] ∨ q ≠ []) then js "Passwords do not match." else js "") := by
  unfold validateAuthForm
  rw [setSubmit_errorEls]
  have h1 := checkUsername_fields
    { valid := true, form := { f with newPassword := some p, confirmPassword := some q } }
  have h2 := checkCurrentPassword_fields (checkUsername
    { valid := true, form := { f with newPassword := some p, confirmPassword := some q } })
  rw [checkNewPassword_errorText_confirm _ p q (by rw [h2.1, h1.2.1]) (by rw [h2.2.1, h1.2.2.1]),
    checkCurrentPassword_errorText_other _ _ (by decide) (by decide),
    checkUsername_errorText_other _ _ (by decide) (by decide)]

/-- C5: in a form that has both the new-password and the confirm-password field, the error
element of `confirm_password` receives "Passwords do not match." exactly when the two values
differ and at least one of them is non-empty, and is cleared otherwise (in particular when
they are equal); values that differ make the form invalid.  Both empty: no error and a valid
form; new password empty and confirmation `x`: the error is raised and the form is invalid. -/
theorem validateAuthForm_confirm_rule :
    (∀ (f : AuthForm) (p q : JsString),
      errorText (validateAuthForm
          { f with newPassword := some p, confirmPassword := some q }).form.errorEls
          (js "confirm_password") =
        (errorText f.errorEls (js "confirm_password")).map (fun _ =>
          if p ≠ q ∧ (p ≠ [] ∨ q ≠ []) then js "Passwords do not match." else js "")) ∧
    (∀ (f : AuthForm) (p q : JsString), p = q ∨
      (validateAuthForm { f with newPassword := some p, confirmPassword := some q }).valid
        = false) ∧
    ((validateAuthForm (sampleForm none none (some (js "")) (some (js "")))).valid = true ∧
      errorText (validateAuthForm
          (sampleForm none none (some (js "")) (some (js "")))).form.errorEls
        (js "confirm_password") = some (js "")) ∧
    ((validateAuthForm (sampleForm none none (some (js "")) (some (js "x")))).valid = false ∧
      errorText (validateAuthForm
          (sampleForm none none (some (js "")) (some (js "x")))).form.errorEls
        (js "confirm_password") = some (js "Passwords do not match.")) ∧
    errorText (validateAuthForm
        (sampleForm none none (some (js "secret1")) (some (js "secret1")))).form.errorEls
      (js "confirm_password") = some (js "") := by
  refine ⟨validateAuthForm_confirm_text, ?_, by decide, by decide, by decide⟩
  intro f p q
  by_cases hpq : p = q
  · exact Or.inl hpq
  · right
    rw [validateAuthForm_valid]
    simp [newPasswordRule, hpq]

/-! ### Password strength -/

theorem checkNewPassword_strengthEl (st : Validation) (p q : JsString)
    (hp : st.form.newPassword = some p) (hq : st.form.confirmPassword = some q) :
    (checkNewPassword st).form.strengthEl = st.form.strengthEl.map (fun _ => strengthText p) := by
  have hc : ∀ s : Validation, (checkConfirm p q s).form.strengthEl = s.form.strengthEl := by
    intro s
    unfold checkConfirm
    split <;> (try split) <;> simp [Validation.withError]
  have hl : ∀ s : Validation, (checkNewLength p s).form.strengthEl = s.form.strengthEl := by
    intro s
    unfold checkNewLength
    split <;> simp [Validation.withError]
  unfold checkNewPassword
  simp only [hp, hq]
  unfold showStrength
  split
  · rename_i h; rw [hc, hl] at h; simp [h, hc, hl]
  · rename_i h; rw [hc, hl] at h; simp [h]

theorem setSubmit_strengthEl (st : Validation) :
    (setSubmit st).form.strengthEl = st.form.strengthEl := by
  unfold setSubmit; split <;> rfl

theorem validateAuthForm_strength (f : AuthForm) (p q : JsString) :
    (validateAuthForm { f with newPassword := some p, confirmPassword := some q }).form.strengthEl =
      f.strengthEl.map (fun _ => strengthText p) := by
  unfold validateAuthForm
  rw [setSubmit_strengthEl]
  have h1 := checkUsername_fields
    { valid := true, form := { f with newPassword := some p, confirmPassword := some q } }
  have h2 := checkCurrentPassword_fields (checkUsername
    { valid := true, form := { f with newPassword := some p, confirmPassword := some q } })
  rw [checkNewPassword_strengthEl _ p q (by rw [h2.1, h1.2.1]) (by rw [h2.2.1, h1.2.2.1]),
    h2.2.2, h1.2.2.2]

theorem strengthText_cases (p : JsString) :
    (p = [] ∧ strengthText p = js "") ∨
    (p ≠ [] ∧ p.length < 8 ∧ strengthText p = js "Password strength: Weak") ∨
    (8 ≤ p.length ∧ (∃ c ∈ p, 'A'.toNat ≤ c ∧ c ≤ 'Z'.toNat) ∧
      (∃ c ∈ p, '0'.toNat ≤ c ∧ c ≤ '9'.toNat) ∧
      (∃ c ∈ p, ¬ (('A'.toNat ≤ c ∧ c ≤ 'Z'.toNat) ∨ ('a'.toNat ≤ c ∧ c ≤ 'z'.toNat) ∨
        ('0'.toNat ≤ c ∧ c ≤ '9'.toNat))) ∧
      strengthText p = js "Password strength: Strong") ∨
    (8 ≤ p.length ∧
      ¬ ((∃ c ∈ p, 'A'.toNat ≤ c ∧ c ≤ 'Z'.toNat) ∧ (∃ c ∈ p, '0'.toNat ≤ c ∧ c ≤ '9'.toNat) ∧
        (∃ c ∈ p, ¬ (('A'.toNat ≤ c ∧ c ≤ 'Z'.toNat) ∨ ('a'.toNat ≤ c ∧ c ≤ 'z'.toNat) ∨
          ('0'.toNat ≤ c ∧ c ≤ '9'.toNat)))) ∧
      strengthText p = js "Password strength: Medium") := by
  have hU : testUpper p = true ↔ ∃ c ∈ p, 'A'.toNat ≤ c ∧ c ≤ 'Z'.toNat := by
    simp [testUpper, List.any_eq_true]
  have hD : testDigit p = true ↔ ∃ c ∈ p, '0'.toNat ≤ c ∧ c ≤ '9'.toNat := by
    simp [testDigit, List.any_eq_true]
  have hN : testNonAlnum p = true ↔ ∃ c ∈ p, ¬ (('A'.toNat ≤ c ∧ c ≤ 'Z'.toNat) ∨
      ('a'.toNat ≤ c ∧ c ≤ 'z'.toNat) ∨ ('0'.toNat ≤ c ∧ c ≤ '9'.toNat)) := by
    simp only [testNonAlnum, List.any_eq_true]
    constructor
    · rintro ⟨c, hc, h⟩
      refine ⟨c, hc, ?_⟩
      simp at h ⊢
      omega
    · rintro ⟨c, hc, h⟩
      refine ⟨c, hc, ?_⟩
      simp at h ⊢
      omega
  by_cases h0 : p = []
  · left; subst h0; exact ⟨rfl, by decide⟩
  right
  have he : p.isEmpty = false := by cases p <;> simp_all
  by_cases h8 : p.length < 8
  · left; exact ⟨h0, h8, by simp [strengthText, he, h8]⟩
  right
  by_cases hs : testUpper p = true ∧ testDigit p = true ∧ testNonAlnum p = true
  · left
    refine ⟨by omega, hU.1 hs.1, hD.1 hs.2.1, hN.1 hs.2.2, ?_⟩
    simp [strengthText, he, h8, hs.1, hs.2.1, hs.2.2]
  · right
    refine ⟨by omega, ?_, ?_⟩
    · rw [← hU, ← hD, ← hN]; exact hs
    · have : (testUpper p && testDigit p && testNonAlnum p) = false := by
        cases h1 : testUpper p <;> cases h2 : testDigit p <;> cases h3 : testNonAlnum p <;>
          simp_all
      simp [strengthText, he, h8, this]

/-- C6: in a form with both password fields, the strength element (when present) receives
the strength text of the new password `p`, and that text is: empty when `p` is empty; the
"Weak" label when `p` is non-empty and shorter than 8; the "Strong" label when `p` has
length at least 8 and contains an uppercase letter, a digit and a non-alphanumeric
character; the "Medium" label in every other case.  The four samples of the contract
evaluate to none, Weak, Medium and Strong. -/
theorem validateAuthForm_strength_label :
    (∀ (f : AuthForm) (p q : JsString),
      (validateAuthForm
          { f with newPassword := some p, confirmPassword := some q }).form.strengthEl =
        f.strengthEl.map (fun _ => strengthText p)) ∧
    (∀ p : JsString,
      (p = [] ∧ strengthText p = js "") ∨
      (p ≠ [] ∧ p.length < 8 ∧ strengthText p = js "Password strength: Weak") ∨
      (8 ≤ p.length ∧ (∃ c ∈ p, 'A'.toNat ≤ c ∧ c ≤ 'Z'.toNat) ∧
        (∃ c ∈ p, '0'.toNat ≤ c ∧ c ≤ '9'.toNat) ∧
        (∃ c ∈ p, ¬ (('A'.toNat ≤ c ∧ c ≤ 'Z'.toNat) ∨ ('a'.toNat ≤ c ∧ c ≤ 'z'.toNat) ∨
          ('0'.toNat ≤ c ∧ c ≤ '9'.toNat))) ∧
        strengthText p = js "Password strength: Strong") ∨
      (8 ≤ p.length ∧
        ¬ ((∃ c ∈ p, 'A'.toNat ≤ c ∧ c ≤ 'Z'.toNat) ∧
          (∃ c ∈ p, '0'.toNat ≤ c ∧ c ≤ '9'.toNat) ∧
          (∃ c ∈ p, ¬ (('A'.toNat ≤ c ∧ c ≤ 'Z'.toNat) ∨ ('a'.toNat ≤ c ∧ c ≤ 'z'.toNat) ∨
            ('0'.toNat ≤ c ∧ c ≤ '9'.toNat)))) ∧
        strengthText p = js "Password strength: Medium")) ∧
    (validateAuthForm (sampleForm none none (some (js "")) (some (js "")))).form.strengthEl =
      some (js "") ∧
    (validateAuthForm (sampleForm none none (some (js "abc")) (some (js "abc")))).form.strengthEl =
      some (js "Password strength: Weak") ∧
    (validateAuthForm
        (sampleForm none none (some (js "abcdefgh")) (some (js "abcdefgh")))).form.strengthEl =
      some (js "Password strength: Medium") ∧
    (validateAuthForm
        (sampleForm none none (some (js "Abcdef1!")) (some (js "Abcdef1!")))).form.strengthEl =
      some (js "Password strength: Strong") := by
  exact ⟨validateAuthForm_strength, strengthText_cases, by decide, by decide, by decide,
    by decide⟩

/-! ## The list renderers -/

theorem forEachIdx_collect {α β : Type} (g : α → Nat → β) (l : List α) (i : Nat)
    (acc : List β) :
    forEachIdx (fun inner a k => inner ++ [g a k]) l i acc =
      acc ++ l.mapIdx (fun k a => g a (i + k)) := by
  induction l generalizing i acc with
  | nil => simp [forEachIdx]
  | cons a rest ih =>
    simp only [forEachIdx, ih, List.mapIdx_cons, List.append_assoc, List.singleton_append,
      Nat.add_zero]
    have e : (fun k b => g b (i + 1 + k)) = (fun k b => g b (i + (k + 1))) := by
      funext k b
      congr 1
      omega
    rw [e]

theorem forEachIdx_collect_map {α β : Type} (g : α → β) (l : List α) (i : Nat)
    (acc : List β) :
    forEachIdx (fun inner a _ => inner ++ [g a]) l i acc = acc ++ l.map g := by
  induction l generalizing i acc with
  | nil => simp [forEachIdx]
  | cons a rest ih => simp [forEachIdx, ih]

theorem displayBlogs_cons (isAdmin : Bool) (formatDate : JsString → JsString)
    (c : List JsString) (b : Blog) (rest : List Blog) :
    displayBlogs isAdmin formatDate (some c) (.array (b :: rest)) =
      { container := some ((b :: rest).mapIdx (fun k blog => blogCard isAdmin formatDate blog k)),
        threw := false } := by
  simp only [displayBlogs, List.length_cons, Nat.add_one_ne_zero, if_false]
  rw [forEachIdx_collect (fun blog k => blogCard isAdmin formatDate blog k)]
  simp

theorem renderPosts_cons (isAdmin : Bool) (formatTime : JsString → JsString)
    (p : Post) (rest : List Post) :
    renderPosts isAdmin formatTime (.array (p :: rest)) =
      { container := some ((p :: rest).map (postCard isAdmin formatTime)), threw := false } := by
  simp only [renderPosts, List.length_cons, Nat.add_one_ne_zero, if_false]
  rw [forEachIdx_collect_map (postCard isAdmin formatTime)]
  simp

theorem blogCard_badge (isAdmin : Bool) (formatDate : JsString → JsString) (blog : Blog)
    (k : Nat) :
    js "<span class=\"blog-seq-badge\">#" ++ (numberToString (k + 1) ++ js "</span>") <:+:
      blogCard isAdmin formatDate blog k := by
  simp only [blogCard, blogCardBody, List.append_assoc]
  exact infix_sandwich _ _ _ _ _ (by decide)
    (List.IsPrefix.trans (by decide) (List.prefix_append _ _))

theorem blogAdminActions_edit (blog : Blog) :
    js "onclick='editBlog(" ++ (blog.id.text ++ js ", ") <:+:
      blogAdminActions true blog := by
  simp only [blogAdminActions, if_true, List.append_assoc]
  refine infix_skip _ _ _ (infix_skip _ _ _ ?_)
  exact infix_sandwich _ _ _ _ _ (by decide) (List.prefix_append _ _)

theorem blogAdminActions_delete (blog : Blog) :
    js "onclick=\"deleteBlog(" ++ (blog.id.text ++ js ")\">") <:+:
      blogAdminActions true blog := by
  simp only [blogAdminActions, if_true, List.append_assoc]
  iterate 12 refine infix_skip _ _ _ ?_
  exact infix_sandwich _ _ _ _ _ (by decide) (by decide)

theorem postAdminActions_reply (post : Post) :
    js "onclick=\"toggleReplyForm(" ++ (post.id.text ++ js ")\">") <:+:
      postAdminActions true post := by
  simp only [postAdminActions, if_true, List.append_assoc]
  exact infix_sandwich _ _ _ _ _ (by decide)
    (List.IsPrefix.trans (by decide) (List.prefix_append _ _))

theorem blogCard_category_raw (isAdmin : Bool) (formatDate : JsString → JsString)
    (blog : Blog) (k : Nat) :
    js "<p class=\"blog-category\">" ++ (blog.category ++ js "</p>") <:+:
      blogCard isAdmin formatDate blog k := by
  simp only [blogCard, blogCardBody, List.append_assoc]
  iterate 2 refine infix_skip _ _ _ ?_
  exact infix_sandwich _ _ _ _ _ (by decide)
    (List.IsPrefix.trans (by decide) (List.prefix_append _ _))

theorem category_infix_blogCard (isAdmin : Bool) (formatDate : JsString → JsString)
    (blog : Blog) (k : Nat) : blog.category <:+: blogCard isAdmin formatDate blog k :=
  List.IsInfix.trans
    (infix_skip _ _ _ (List.prefix_append blog.category (js "</p>")).isInfix)
    (blogCard_category_raw isAdmin formatDate blog k)

set_option maxRecDepth 100000 in
/-- C7 (controls of an administrator in a card rendered without the flag): both list
renderers leave the single placeholder for an empty sequence and, for a non-empty one,
exactly one fragment per record in input order, the k-th fragment being the card of the k-th
record (blog cards carry the badge numbered from 1); the admin block of a card is empty
without the admin flag and holds the Edit and Delete (Reply) controls with it.  Yet the card
holds the category of its record verbatim, so for a record whose category is the markup of
a Delete button the card rendered without the admin flag holds the very text that marks the
Delete control of its record. -/
theorem displayBlogs_nonadmin_card_holds_controls :
    displayBlogs false sampleFormatDate (some []) (.array [injectedControlsBlog]) =
      { container := some [blogCard false sampleFormatDate injectedControlsBlog 0],
        threw := false } ∧
    js "onclick=\"deleteBlog(" ++ (injectedControlsBlog.id.text ++ js ")\">") <:+:
      blogCard false sampleFormatDate injectedControlsBlog 0 ∧
    (∀ (isAdmin : Bool) (formatDate : JsString → JsString) (blog : Blog) (k : Nat),
      blog.category <:+: blogCard isAdmin formatDate blog k) ∧
    (∀ (isAdmin : Bool) (formatDate : JsString → JsString) (c : List JsString),
      displayBlogs isAdmin formatDate (some c) (.array []) =
        { container := some [blogsPlaceholder], threw := false }) ∧
    (∀ (isAdmin : Bool) (formatDate : JsString → JsString) (c : List JsString) (b : Blog)
        (rest : List Blog),
      displayBlogs isAdmin formatDate (some c) (.array (b :: rest)) =
        { container :=
            some ((b :: rest).mapIdx (fun k blog => blogCard isAdmin formatDate blog k)),
          threw := false }) ∧
    (∀ (isAdmin : Bool) (formatDate : JsString → JsString) (blog : Blog) (k : Fin (2 ^ 32)),
      js "<span class=\"blog-seq-badge\">#" ++ (numberToString (k.val + 1) ++ js "</span>") <:+:
        blogCard isAdmin formatDate blog k.val) ∧
    (∀ (formatDate : JsString → JsString) (blog : Blog) (k : Nat),
      ∃ pre post : JsString, ∀ isAdmin : Bool,
        blogCard isAdmin formatDate blog k = pre ++ blogAdminActions isAdmin blog ++ post) ∧
    (∀ blog : Blog, blogAdminActions false blog = [] ∧
      js "onclick='editBlog(" ++ (blog.id.text ++ js ", ") <:+:
        blogAdminActions true blog ∧
      js "onclick=\"deleteBlog(" ++ (blog.id.text ++ js ")\">") <:+:
        blogAdminActions true blog) ∧
    (∀ (isAdmin : Bool) (formatTime : JsString → JsString),
      renderPosts isAdmin formatTime (.array []) =
        { container := some [postsPlaceholder], threw := false }) ∧
    (∀ (isAdmin : Bool) (formatTime : JsString → JsString) (p : Post) (rest : List Post),
      renderPosts isAdmin formatTime (.array (p :: rest)) =
        { container := some ((p :: rest).map (postCard isAdmin formatTime)), threw := false }) ∧
    (∀ (formatTime : JsString → JsString) (post : Post),
      ∃ pre rest : JsString, ∀ isAdmin : Bool,
        postCard isAdmin formatTime post = pre ++ postAdminActions isAdmin post ++ rest) ∧
    (∀ post : Post, postAdminActions false post = [] ∧
      js "onclick=\"toggleReplyForm(" ++ (post.id.text ++ js ")\">") <:+:
        postAdminActions true post) := by
  refine ⟨?_, ?_, category_infix_blogCard, ?_, displayBlogs_cons,
    fun isAdmin formatDate blog k => blogCard_badge isAdmin formatDate blog k.val, ?_, ?_, ?_,
    renderPosts_cons, ?_, ?_⟩
  · rw [injectedControlsBlog, displayBlogs_cons]
    rfl
  · exact List.IsInfix.trans (by decide)
      (category_infix_blogCard false sampleFormatDate injectedControlsBlog 0)
  · intro isAdmin formatDate c
    rfl
  · intro formatDate blog k
    exact ⟨blogCardBody formatDate blog k, _, fun isAdmin => rfl⟩
  · intro blog
    exact ⟨rfl, blogAdminActions_edit blog, blogAdminActions_delete blog⟩
  · intro isAdmin formatTime
    rfl
  · intro formatTime post
    exact ⟨postHead formatTime post, postReplies formatTime post ++ js "</div>",
      fun isAdmin => by simp [postCard, List.append_assoc]⟩
  · intro post
    exact ⟨rfl, postAdminActions_reply post⟩

/-! ## Values interpolated into inline handlers -/

theorem apostrophe_mem_quoteJSONBody (s : JsString) (h : '\''.toNat ∈ s) :
    '\''.toNat ∈ quoteJSONBody s := by
  induction s using quoteJSONBody.induct with
  | case1 => simp at h
  | case2 c hc =>
    have e : c = 39 := by
      have h' : 39 = c := by simpa using h
      exact h'.symm
    subst e
    simp [isHighSurrogate, isLowSurrogate] at hc
  | case3 c hc =>
    have e : c = 39 := by
      have h' : 39 = c := by simpa using h
      exact h'.symm
    subst e
    decide
  | case4 c d rest hc hd ih =>
    have hne : c ≠ 39 := by
      intro e; subst e; simp [isHighSurrogate] at hc
    have hne' : d ≠ 39 := by
      intro e; subst e; simp [isLowSurrogate] at hd
    have hr : '\''.toNat ∈ rest := by
      simp at h
      rcases h with h | h | h
      · exact absurd h.symm hne
      · exact absurd h.symm hne'
      · simpa using h
    simp only [quoteJSONBody, hc, hd, if_true]
    exact List.mem_cons_of_mem _ (List.mem_cons_of_mem _ (ih hr))
  | case5 c d rest hc hd ih =>
    have hne : c ≠ 39 := by
      intro e; subst e; simp [isHighSurrogate] at hc
    have hr : '\''.toNat ∈ d :: rest := by
      simp at h
      rcases h with h | h
      · exact absurd h.symm hne
      · simpa using h
    simp only [quoteJSONBody, hc, hd, if_true]
    exact List.mem_append_right _ (ih hr)
  | case6 c d rest hc hl ih =>
    have hne : c ≠ 39 := by
      intro e; subst e; simp [isLowSurrogate] at hl
    have hr : '\''.toNat ∈ d :: rest := by
      simp at h
      rcases h with h | h
      · exact absurd h.symm hne
      · simpa using h
    simp only [quoteJSONBody, hc, hl, if_true]
    exact List.mem_append_right _ (ih hr)
  | case7 c d rest hc hl ih =>
    simp only [quoteJSONBody, hc, hl]
    by_cases e : c = 39
    · subst e
      exact List.mem_append_left _ (by decide)
    · have hr : '\''.toNat ∈ d :: rest := by
        simp at h
        rcases h with h | h
        · exact absurd h.symm e
        · simpa using h
      exact List.mem_append_right _ (ih hr)

theorem apostrophe_mem_jsonStringify (s : JsString) (h : '\''.toNat ∈ s) :
    '\''.toNat ∈ jsonStringify s := by
  unfold jsonStringify
  exact List.mem_append_left _ (List.mem_append_right _ (apostrophe_mem_quoteJSONBody s h))

set_option maxRecDepth 100000 in
/-- C3 (the encoding does not keep the value inside the attribute): `JSON.stringify` copies
an apostrophe unchanged, so for a blog titled `it's` the single-quoted `onclick` attributes
of the open control and of the Edit control end inside the title: the attribute value read
back from the markup stops at `openBlogModal(7, "it` and at `editBlog(7, "it`. -/
theorem displayBlogs_onclick_cut_by_apostrophe :
    (∀ s : JsString, '\''.toNat ∉ s ∨ '\''.toNat ∈ jsonStringify s) ∧
    jsonStringify apostropheBlog.title = js "\"it's\"" ∧
    (afterFirst (js "onclick='")
        (blogCard false sampleFormatDate apostropheBlog 0)).map singleQuotedValue =
      some (js "openBlogModal(7, \"it") ∧
    (afterFirst (js "onclick='") (blogAdminActions true apostropheBlog)).map singleQuotedValue =
      some (js "editBlog(7, \"it") := by
  refine ⟨?_, by decide, by decide, by decide⟩
  intro s
  by_cases h : '\''.toNat ∈ s
  · exact Or.inr (apostrophe_mem_jsonStringify s h)
  · exact Or.inl h

/-! ## Record text in element content -/

/-- C10 (the category is not escaped): every card holds the category of its record verbatim
between `<p class="blog-category">` and `</p>`; for a category made of an `img` tag the
card holds that tag with its literal `<`, while `escapeHtml` would have produced
`&lt;img src=x onerror=alert(1)&gt;`. -/
theorem blogCard_category_unescaped :
    (∀ (isAdmin : Bool) (formatDate : JsString → JsString) (blog : Blog) (k : Nat),
      js "<p class=\"blog-category\">" ++ (blog.category ++ js "</p>") <:+:
        blogCard isAdmin formatDate blog k) ∧
    js "<p class=\"blog-category\"><img src=x onerror=alert(1)></p>" <:+:
      blogCard false sampleFormatDate markupCategoryBlog 0 ∧
    escapeHtml markupCategoryBlog.category = js "&lt;img src=x onerror=alert(1)&gt;" ∧
    '<'.toNat ∈ markupCategoryBlog.category := by
  refine ⟨blogCard_category_raw, ?_, by decide, by decide⟩
  have h := blogCard_category_raw false sampleFormatDate markupCategoryBlog 0
  have e : js "<p class=\"blog-category\">" ++ (markupCategoryBlog.category ++ js "</p>") =
      js "<p class=\"blog-category\"><img src=x onerror=alert(1)></p>" := by decide
  rw [e] at h
  exact h

/-! ## Background loads -/

/-- C9 (the status is never consulted): a rejected fetch or a body that is not JSON leaves
the container as it was and is logged, but `loadBlogs` and `loadPosts` treat a response with
a failure status exactly like a successful one.  With a failure status and an error object
as body the renderer is called, the prior content is cleared and the `TypeError` of
`forEach` is logged; with a failure status and an empty array as body the placeholder
replaces the prior content. -/
theorem loaders_render_on_failure_status :
    (∀ (isAdmin : Bool) (formatDate : JsString → JsString) (prior : Option (List JsString)),
      loadBlogs isAdmin formatDate prior .rejected =
        { container := prior, logged := true, rendererCalled := false }) ∧
    (∀ (isAdmin : Bool) (formatDate : JsString → JsString) (prior : Option (List JsString))
        (body : Option (Payload Blog)),
      loadBlogs isAdmin formatDate prior (.response false body) =
        loadBlogs isAdmin formatDate prior (.response true body)) ∧
    loadBlogs false sampleFormatDate (some [js "<li>old</li>"])
        (.response false (some .nonArray)) =
      { container := some [], logged := true, rendererCalled := true } ∧
    loadBlogs false sampleFormatDate (some [js "<li>old</li>"])
        (.response false (some (.array []))) =
      { container := some [blogsPlaceholder], logged := false, rendererCalled := true } ∧
    (∀ (isAdmin : Bool) (formatTime : JsString → JsString) (posts : Payload Post)
        (prior : List JsString),
      loadPosts isAdmin formatTime posts prior .rejected =
        { routinePosts := posts, container := prior, logged := true,
          rendererCalled := false }) ∧
    (∀ (isAdmin : Bool) (formatTime : JsString → JsString) (posts : Payload Post)
        (prior : List JsString) (body : Option (Payload Post)),
      loadPosts isAdmin formatTime posts prior (.response false body) =
        loadPosts isAdmin formatTime posts prior (.response true body)) ∧
    loadPosts false sampleFormatDate (.array []) [js "<div>old</div>"]
        (.response false (some .nonArray)) =
      { routinePosts := .nonArray, container := [], logged := true, rendererCalled := true } ∧
    loadPosts false sampleFormatDate (.array []) [js "<div>old</div>"]
        (.response false (some (.array []))) =
      { routinePosts := .array [], container := [postsPlaceholder], logged := false,
        rendererCalled := true } := by
  refine ⟨fun _ _ _ => rfl, ?_, by decide, by decide, fun _ _ _ _ => rfl, ?_, by decide,
    by decide⟩
  · intro isAdmin formatDate prior body
    cases body <;> rfl
  · intro isAdmin formatTime posts prior body
    cases body <;> rfl

/-! ## The timestamp parser -/

theorem isDigit_digitUnit (d : Fin 10) : isDigit (digitUnit d) = true := by
  have := d.isLt
  simp [isDigit, digitUnit]
  omega

theorem digitsToNumber_two (a b : Fin 10) :
    digitsToNumber [digitUnit a, digitUnit b] = 10 * a.val + b.val := by
  simp [digitsToNumber, digitUnit]

theorem digitsToNumber_four (a b c d : Fin 10) :
    digitsToNumber [digitUnit a, digitUnit b, digitUnit c, digitUnit d] =
      1000 * a.val + 100 * b.val + 10 * c.val + d.val := by
  simp [digitsToNumber, digitUnit]
  ring

theorem matchLocal_localStamp (y1 y2 y3 y4 m1 m2 d1 d2 : Fin 10) (sepT : Bool)
    (h1 h2 n1 n2 s1 s2 : Fin 10) (tail : JsString) :
    matchLocal (localStamp y1 y2 y3 y4 m1 m2 d1 d2 (if sepT then 'T'.toNat else ' '.toNat)
        h1 h2 n1 n2 s1 s2 ++ tail) =
      some (1000 * y1.val + 100 * y2.val + 10 * y3.val + y4.val, 10 * m1.val + m2.val,
        10 * d1.val + d2.val, 10 * h1.val + h2.val, 10 * n1.val + n2.val,
        10 * s1.val + s2.val) := by
  cases sepT <;>
    simp [matchLocal, unitAt, localStamp, isDigit_digitUnit, digitsToNumber_two,
      digitsToNumber_four]

theorem hasTimezone_marker (pre post : JsString) (upper : Bool) :
    hasTimezone (pre ++ (if upper then 'Z'.toNat else 'z'.toNat) :: post) = true := by
  cases upper <;> simp [hasTimezone]

theorem unitAt_append_right (pre l : JsString) (i : Nat) :
    unitAt (pre ++ l) (pre.length + i) = unitAt l i := by
  simp [unitAt, List.getD_eq_getElem?_getD, List.getElem?_append_right]

theorem hasTimezone_offset (pre : JsString) (plus : Bool) (a b c d : Fin 10) :
    hasTimezone (pre ++ [if plus then '+'.toNat else '-'.toNat, digitUnit a, digitUnit b,
      ':'.toNat, digitUnit c, digitUnit d]) = true := by
  have e : ∀ k, k ≤ 6 → (pre ++ [if plus then '+'.toNat else '-'.toNat, digitUnit a,
      digitUnit b, ':'.toNat, digitUnit c, digitUnit d]).length - k =
      pre.length + (6 - k) := by
    intro k hk
    simp
    omega
  unfold hasTimezone
  rw [e 6 (by omega), e 5 (by omega), e 4 (by omega), e 3 (by omega), e 2 (by omega),
    e 1 (by omega)]
  simp only [unitAt_append_right]
  cases plus <;> simp [unitAt, isDigit_digitUnit]

theorem exists_digitUnit (x : Nat) (h : isDigit x = true) : ∃ d : Fin 10, x = digitUnit d := by
  simp [isDigit] at h
  exact ⟨⟨x - 48, by omega⟩, by simp [digitUnit]; omega⟩

theorem six_units (l : JsString) (h : l.length = 6) :
    l = [unitAt l 0, unitAt l 1, unitAt l 2, unitAt l 3, unitAt l 4, unitAt l 5] := by
  match l, h with
  | [a, b, c, d, e, f], _ => simp [unitAt]

theorem unitAt_drop (s : JsString) (k i : Nat) : unitAt (s.drop k) i = unitAt s (k + i) := by
  simp [unitAt, List.getD_eq_getElem?_getD, List.getElem?_drop]

theorem hasTimezone_sound (s : JsString) (h : hasTimezone s = true) :
    (∃ c ∈ s, c = 'z'.toNat ∨ c = 'Z'.toNat) ∨
    ∃ (pre : JsString) (plus : Bool) (a b c d : Fin 10),
      s = pre ++ [if plus then '+'.toNat else '-'.toNat, digitUnit a, digitUnit b,
        ':'.toNat, digitUnit c, digitUnit d] := by
  unfold hasTimezone at h
  rw [Bool.or_eq_true] at h
  rcases h with h | h
  · left
    simpa [List.any_eq_true] using h
  · right
    simp only [Bool.and_eq_true, decide_eq_true_eq] at h
    obtain ⟨⟨⟨⟨⟨⟨hn, hs⟩, ha⟩, hb⟩, hcol⟩, hc⟩, hd⟩ := h
    obtain ⟨a, ea⟩ := exists_digitUnit _ ha
    obtain ⟨b, eb⟩ := exists_digitUnit _ hb
    obtain ⟨c, ec⟩ := exists_digitUnit _ hc
    obtain ⟨d, ed⟩ := exists_digitUnit _ hd
    have hl : (s.drop (s.length - 6)).length = 6 := by simp; omega
    have h6 := six_units _ hl
    simp only [unitAt_drop] at h6
    have e5 : s.length - 6 + 1 = s.length - 5 := by omega
    have e4 : s.length - 6 + 2 = s.length - 4 := by omega
    have e3 : s.length - 6 + 3 = s.length - 3 := by omega
    have e2 : s.length - 6 + 4 = s.length - 2 := by omega
    have e1 : s.length - 6 + 5 = s.length - 1 := by omega
    rw [Nat.add_zero, e5, e4, e3, e2, e1, ea, eb, ec, ed] at h6
    have hcol' : unitAt s (s.length - 3) = ':'.toNat := by simpa using hcol
    rw [hcol'] at h6
    have hsplit : s = s.take (s.length - 6) ++ s.drop (s.length - 6) :=
      (List.take_append_drop _ _).symm
    rw [Bool.or_eq_true] at hs
    rcases hs with hs | hs
    · refine ⟨s.take (s.length - 6), true, a, b, c, d, ?_⟩
      have hs' : unitAt s (s.length - 6) = '+'.toNat := by simpa using hs
      rw [hs'] at h6
      have e : s = s.take (s.length - 6) ++ s.drop (s.length - 6) := hsplit
      rw [h6] at e
      exact e
    · refine ⟨s.take (s.length - 6), false, a, b, c, d, ?_⟩
      have hs' : unitAt s (s.length - 6) = '-'.toNat := by simpa using hs
      rw [hs'] at h6
      have e : s = s.take (s.length - 6) ++ s.drop (s.length - 6) := hsplit
      rw [h6] at e
      exact e

theorem hasTimezone_iff (s : JsString) :
    hasTimezone s = true ↔
      ((∃ c ∈ s, c = 'z'.toNat ∨ c = 'Z'.toNat) ∨
        ∃ (pre : JsString) (plus : Bool) (a b c d : Fin 10),
          s = pre ++ [if plus then '+'.toNat else '-'.toNat, digitUnit a, digitUnit b,
            ':'.toNat, digitUnit c, digitUnit d]) := by
  constructor
  · exact hasTimezone_sound s
  · rintro (⟨c, hc, hz⟩ | ⟨pre, plus, a, b, c, d, rfl⟩)
    · obtain ⟨pre, post, rfl⟩ := List.append_of_mem hc
      rcases hz with rfl | rfl
      · exact hasTimezone_marker pre post false
      · exact hasTimezone_marker pre post true
    · exact hasTimezone_offset pre plus a b c d

theorem lt_length_of_isDigit_unitAt (s : JsString) (i : Nat) (h : isDigit (unitAt s i) = true) :
    i < s.length := by
  by_contra hn
  have e : unitAt s i = 0 := by
    simp [unitAt, List.getD_eq_getElem?_getD, List.getElem?_eq_none (Nat.le_of_not_lt hn)]
  rw [e] at h
  simp [isDigit] at h

theorem nineteen_units (l : JsString) (h : l.length = 19) :
    l = [unitAt l 0, unitAt l 1, unitAt l 2, unitAt l 3, unitAt l 4, unitAt l 5, unitAt l 6,
      unitAt l 7, unitAt l 8, unitAt l 9, unitAt l 10, unitAt l 11, unitAt l 12, unitAt l 13,
      unitAt l 14, unitAt l 15, unitAt l 16, unitAt l 17, unitAt l 18] := by
  match l, h with
  | [a0, a1, a2, a3, a4, a5, a6, a7, a8, a9, a10, a11, a12, a13, a14, a15, a16, a17, a18], _ =>
    simp [unitAt]

theorem unitAt_take (s : JsString) (k i : Nat) (h : i < k) :
    unitAt (s.take k) i = unitAt s i := by
  simp [unitAt, List.getD_eq_getElem?_getD, List.getElem?_take, h]

theorem matchLocal_sound (s : JsString) (h : matchLocal s ≠ none) :
    ∃ (y1 y2 y3 y4 m1 m2 d1 d2 : Fin 10) (sepT : Bool) (h1 h2 n1 n2 s1 s2 : Fin 10),
      s = localStamp y1 y2 y3 y4 m1 m2 d1 d2 (if sepT then 'T'.toNat else ' '.toNat)
        h1 h2 n1 n2 s1 s2 ++ s.drop 19 := by
  unfold matchLocal at h
  simp only [ne_eq, ite_eq_right_iff, reduceCtorEq, imp_false, not_not, Bool.and_eq_true,
    beq_iff_eq] at h
  obtain ⟨⟨⟨⟨⟨⟨⟨⟨⟨⟨⟨⟨⟨⟨⟨⟨⟨⟨g0, g1⟩, g2⟩, g3⟩, g4⟩, g5⟩, g6⟩, g7⟩, g8⟩, g9⟩, g10⟩, g11⟩, g12⟩, g13⟩,
    g14⟩, g15⟩, g16⟩, g17⟩, g18⟩ := h
  have hlen : 18 < s.length := lt_length_of_isDigit_unitAt s 18 g18
  obtain ⟨y1, e0⟩ := exists_digitUnit _ g0
  obtain ⟨y2, e1⟩ := exists_digitUnit _ g1
  obtain ⟨y3, e2⟩ := exists_digitUnit _ g2
  obtain ⟨y4, e3⟩ := exists_digitUnit _ g3
  obtain ⟨m1, e5⟩ := exists_digitUnit _ g5
  obtain ⟨m2, e6⟩ := exists_digitUnit _ g6
  obtain ⟨d1, e8⟩ := exists_digitUnit _ g8
  obtain ⟨d2, e9⟩ := exists_digitUnit _ g9
  obtain ⟨h1, e11⟩ := exists_digitUnit _ g11
  obtain ⟨h2, e12⟩ := exists_digitUnit _ g12
  obtain ⟨n1, e14⟩ := exists_digitUnit _ g14
  obtain ⟨n2, e15⟩ := exists_digitUnit _ g15
  obtain ⟨s1, e17⟩ := exists_digitUnit _ g17
  obtain ⟨s2, e18⟩ := exists_digitUnit _ g18
  have hl : (s.take 19).length = 19 := by simp; omega
  have h19 := nineteen_units _ hl
  simp only [unitAt_take s 19 _ (by decide : 0 < 19), unitAt_take s 19 _ (by decide : 1 < 19),
    unitAt_take s 19 _ (by decide : 2 < 19), unitAt_take s 19 _ (by decide : 3 < 19),
    unitAt_take s 19 _ (by decide : 4 < 19), unitAt_take s 19 _ (by decide : 5 < 19),
    unitAt_take s 19 _ (by decide : 6 < 19), unitAt_take s 19 _ (by decide : 7 < 19),
    unitAt_take s 19 _ (by decide : 8 < 19), unitAt_take s 19 _ (by decide : 9 < 19),
    unitAt_take s 19 _ (by decide : 10 < 19), unitAt_take s 19 _ (by decide : 11 < 19),
    unitAt_take s 19 _ (by decide : 12 < 19), unitAt_take s 19 _ (by decide : 13 < 19),
    unitAt_take s 19 _ (by decide : 14 < 19), unitAt_take s 19 _ (by decide : 15 < 19),
    unitAt_take s 19 _ (by decide : 16 < 19), unitAt_take s 19 _ (by decide : 17 < 19),
    unitAt_take s 19 _ (by decide : 18 < 19)] at h19
  rw [e0, e1, e2, e3, g4, e5, e6, g7, e8, e9, e11, e12, g13, e14, e15, g16, e17, e18] at h19
  have hsplit : s = s.take 19 ++ s.drop 19 := (List.take_append_drop _ _).symm
  rw [Bool.or_eq_true] at g10
  rcases g10 with g10 | g10
  · have g10' : unitAt s 10 = 'T'.toNat := by simpa using g10
    rw [g10'] at h19
    refine ⟨y1, y2, y3, y4, m1, m2, d1, d2, true, h1, h2, n1, n2, s1, s2, ?_⟩
    rw [h19] at hsplit
    exact hsplit
  · have g10' : unitAt s 10 = ' '.toNat := by simpa using g10
    rw [g10'] at h19
    refine ⟨y1, y2, y3, y4, m1, m2, d1, d2, false, h1, h2, n1, n2, s1, s2, ?_⟩
    rw [h19] at hsplit
    exact hsplit

theorem matchLocal_iff (s : JsString) :
    matchLocal s ≠ none ↔
      ∃ (y1 y2 y3 y4 m1 m2 d1 d2 : Fin 10) (sepT : Bool) (h1 h2 n1 n2 s1 s2 : Fin 10)
        (tail : JsString),
        s = localStamp y1 y2 y3 y4 m1 m2 d1 d2 (if sepT then 'T'.toNat else ' '.toNat)
          h1 h2 n1 n2 s1 s2 ++ tail := by
  constructor
  · intro h
    obtain ⟨y1, y2, y3, y4, m1, m2, d1, d2, sepT, h1, h2, n1, n2, s1, s2, e⟩ :=
      matchLocal_sound s h
    exact ⟨y1, y2, y3, y4, m1, m2, d1, d2, sepT, h1, h2, n1, n2, s1, s2, _, e⟩
  · rintro ⟨y1, y2, y3, y4, m1, m2, d1, d2, sepT, h1, h2, n1, n2, s1, s2, tail, rfl⟩
    rw [matchLocal_localStamp]
    simp

theorem parseTimestamp_some (s : JsString) (he : s.isEmpty = false) :
    parseTimestamp (some s) =
      if hasTimezone s then .parse s
      else match matchLocal s with
        | some (y, m, d, hh, mm, ss) => .localTime y ((m : Int) - 1) d hh mm ss
        | none => .parse s := by
  unfold parseTimestamp
  simp only [stringOrEmpty_eq, he]
  rfl

theorem parseTimestamp_cases (s : JsString) :
    (s = [] ∧ parseTimestamp (some s) = .now) ∨
    (s ≠ [] ∧ hasTimezone s = true ∧ parseTimestamp (some s) = .parse s) ∨
    (s ≠ [] ∧ hasTimezone s = false ∧ ∃ y m d hh mm ss : Nat,
      matchLocal s = some (y, m, d, hh, mm, ss) ∧
      parseTimestamp (some s) = .localTime y ((m : Int) - 1) d hh mm ss) ∨
    (s ≠ [] ∧ hasTimezone s = false ∧ matchLocal s = none ∧
      parseTimestamp (some s) = .parse s) := by
  by_cases h0 : s = []
  · left; subst h0; exact ⟨rfl, rfl⟩
  right
  have he : s.isEmpty = false := by cases s <;> simp_all
  rw [parseTimestamp_some s he]
  by_cases hz : hasTimezone s = true
  · left
    refine ⟨h0, hz, ?_⟩
    rw [hz]; rfl
  right
  have hz' : hasTimezone s = false := by simpa using hz
  rw [hz']
  cases hm : matchLocal s with
  | none =>
    right
    exact ⟨h0, rfl, rfl, rfl⟩
  | some t =>
    left
    obtain ⟨y, m, d, hh, mm, ss⟩ := t
    exact ⟨h0, rfl, y, m, d, hh, mm, ss, rfl, rfl⟩

theorem parseTimestamp_localStamp (y1 y2 y3 y4 m1 m2 d1 d2 : Fin 10) (sepT : Bool)
    (h1 h2 n1 n2 s1 s2 : Fin 10) (tail : JsString) :
    hasTimezone (localStamp y1 y2 y3 y4 m1 m2 d1 d2 (if sepT then 'T'.toNat else ' '.toNat)
        h1 h2 n1 n2 s1 s2 ++ tail) = true ∨
    parseTimestamp (some (localStamp y1 y2 y3 y4 m1 m2 d1 d2
        (if sepT then 'T'.toNat else ' '.toNat) h1 h2 n1 n2 s1 s2 ++ tail)) =
      .localTime (1000 * y1.val + 100 * y2.val + 10 * y3.val + y4.val)
        ((10 * m1.val + m2.val : Nat) - 1) (10 * d1.val + d2.val) (10 * h1.val + h2.val)
        (10 * n1.val + n2.val) (10 * s1.val + s2.val) := by
  generalize hs : localStamp y1 y2 y3 y4 m1 m2 d1 d2 (if sepT then 'T'.toNat else ' '.toNat)
      h1 h2 n1 n2 s1 s2 ++ tail = s
  have hm := matchLocal_localStamp y1 y2 y3 y4 m1 m2 d1 d2 sepT h1 h2 n1 n2 s1 s2 tail
  rw [hs] at hm
  have he : s.isEmpty = false := by
    rw [← hs]; simp [localStamp]
  by_cases hz : hasTimezone s = true
  · exact Or.inl hz
  · right
    have hz' : hasTimezone s = false := by simpa using hz
    rw [parseTimestamp_some s he, hz', hm]
    rfl

/-- C8 (texts routed against the comments of the function): the date-only text
`2024-01-05` carries no UTC marker and no offset, yet no local date is built from its
components: it is handed to the native parser.  The text `2024-01-05T10:00:00+0530`
carries a numeric offset, yet it fails the offset test (which wants a colon) and is built
as local wall-clock 10:00, the offset dropped.  What does hold: an empty or null input
yields the current time, a text ending in `Z` goes to the native parser,
`2024-01-05T10:00:00` is built as local 10:00 on 5 January 2024; in general a non-empty
text goes to the native parser when it holds a `z` or `Z` or ends with a sign, two digits,
a colon and two digits, is built from its six numbers as local components when it
otherwise begins with `YYYY-MM-DD`, a `T` or a space, and `HH:MM:SS`, and goes to the
native parser in every other case. -/
theorem parseTimestamp_misroutes_date_only_and_compact_offset :
    (hasTimezone (js "2024-01-05") = false ∧
      parseTimestamp (some (js "2024-01-05")) = .parse (js "2024-01-05")) ∧
    parseTimestamp (some (js "2024-01-05T10:00:00+0530")) = .localTime 2024 0 5 10 0 0 ∧
    parseTimestamp none = .now ∧ parseTimestamp (some (js "")) = .now ∧
    parseTimestamp (some (js "2024-01-05T10:00:00Z")) = .parse (js "2024-01-05T10:00:00Z") ∧
    parseTimestamp (some (js "2024-01-05T10:00:00+05:30")) =
      .parse (js "2024-01-05T10:00:00+05:30") ∧
    parseTimestamp (some (js "2024-01-05T10:00:00")) = .localTime 2024 0 5 10 0 0 ∧
    parseTimestamp (some (js "2024-01-05 10:00:00")) = .localTime 2024 0 5 10 0 0 ∧
    (∀ s : JsString, hasTimezone s = true ↔
      ((∃ c ∈ s, c = 'z'.toNat ∨ c = 'Z'.toNat) ∨
        ∃ (pre : JsString) (plus : Bool) (a b c d : Fin 10),
          s = pre ++ [if plus then '+'.toNat else '-'.toNat, digitUnit a, digitUnit b,
            ':'.toNat, digitUnit c, digitUnit d])) ∧
    (∀ s : JsString, matchLocal s ≠ none ↔
      ∃ (y1 y2 y3 y4 m1 m2 d1 d2 : Fin 10) (sepT : Bool) (h1 h2 n1 n2 s1 s2 : Fin 10)
        (tail : JsString),
        s = localStamp y1 y2 y3 y4 m1 m2 d1 d2 (if sepT then 'T'.toNat else ' '.toNat)
          h1 h2 n1 n2 s1 s2 ++ tail) ∧
    (∀ s : JsString,
      (s = [] ∧ parseTimestamp (some s) = .now) ∨
      (s ≠ [] ∧ hasTimezone s = true ∧ parseTimestamp (some s) = .parse s) ∨
      (s ≠ [] ∧ hasTimezone s = false ∧ ∃ y m d hh mm ss : Nat,
        matchLocal s = some (y, m, d, hh, mm, ss) ∧
        parseTimestamp (some s) = .localTime y ((m : Int) - 1) d hh mm ss) ∨
      (s ≠ [] ∧ hasTimezone s = false ∧ matchLocal s = none ∧
        parseTimestamp (some s) = .parse s)) ∧
    (∀ (y1 y2 y3 y4 m1 m2 d1 d2 : Fin 10) (sepT : Bool) (h1 h2 n1 n2 s1 s2 : Fin 10)
        (tail : JsString),
      hasTimezone (localStamp y1 y2 y3 y4 m1 m2 d1 d2 (if sepT then 'T'.toNat else ' '.toNat)
          h1 h2 n1 n2 s1 s2 ++ tail) = true ∨
      parseTimestamp (some (localStamp y1 y2 y3 y4 m1 m2 d1 d2
          (if sepT then 'T'.toNat else ' '.toNat) h1 h2 n1 n2 s1 s2 ++ tail)) =
        .localTime (1000 * y1.val + 100 * y2.val + 10 * y3.val + y4.val)
          ((10 * m1.val + m2.val : Nat) - 1) (10 * d1.val + d2.val) (10 * h1.val + h2.val)
          (10 * n1.val + n2.val) (10 * s1.val + s2.val)) := by
  exact ⟨⟨by decide, by decide⟩, by decide, by decide, by decide, by decide, by decide,
    by decide, by decide, hasTimezone_iff, matchLocal_iff, parseTimestamp_cases,
    parseTimestamp_localStamp⟩

end Script
